import Mathlib

/-!
# Path planning: the trajectory generator

A shallow embedding of `term3/projects/p1-path-planning/src/trajectory_generator.cpp`, and of
`Tools::normalizeAngle` of `term2/projects/p1-extended-kalman-filter/src/tools.cpp`.

* `double` values are rationals, `std::size_t` values are naturals with the
  arithmetic reduced modulo `2 ^ 64` where the source subtracts.
* The constants of `constants.h`, the `Map` class and `std::sqrt` are not part
  of the sources at hand: they are parameters (`Constants`, `Map`, `Library`).
* An `operator[]` read outside a container does not stop the C++ program; the
  value it yields is unspecified and is a parameter of the model as well
  (`Library.strayDeque`, `Library.strayVector`, `Library.strayTable`).
-/

namespace PathPlanning

/-! ## Machine numbers -/

/-- Number of values of `std::size_t`. -/
def kSizeMod : ℕ := 2 ^ 64

/-- Subtraction `a - b` of two `std::size_t` values (wraps around). -/
def subSizeT (a b : ℕ) : ℕ := (a % kSizeMod + kSizeMod - b % kSizeMod) % kSizeMod

/-- The value of `std::numeric_limits<double>::max()`. -/
def kDoubleMax : ℚ := (2 ^ 53 - 1) * 2 ^ 971

/-- The remainder `std::fmod(x, y)`: `x` minus `y` times the quotient truncated towards zero. -/
def fmod {α : Type} [LinearOrderedField α] [FloorRing α] (x y : α) : α :=
  x - y * (if 0 ≤ x / y then ((⌊x / y⌋ : ℤ) : α) else ((⌈x / y⌉ : ℤ) : α))

/-! ## Data model -/

/-- The behaviour commands of `CarBehavior`. -/
inductive CarBehavior where
  | GO_STRAIGHT
  | CHANGE_LANE_LEFT
  | CHANGE_LANE_RIGHT
  | COMPLETE_LANE_CHANGE
  deriving DecidableEq, Repr

/-- Road-relative kinematic state; `EgoVehicleFrenet()` sets every field to zero. -/
structure EgoVehicleFrenet where
  s : ℚ := 0
  s_dot : ℚ := 0
  s_ddot : ℚ := 0
  d : ℚ := 0
  d_dot : ℚ := 0
  d_ddot : ℚ := 0
  deriving DecidableEq, Repr

/-- The fields of `EgoVehicleData` that the generator reads. -/
structure EgoVehicleData where
  s : ℚ
  d : ℚ
  deriving DecidableEq, Repr

/-- One observed vehicle of the sensor-fusion snapshot. -/
structure VehicleData where
  id : ℤ
  x : ℚ
  y : ℚ
  vx : ℚ
  vy : ℚ
  s : ℚ
  d : ℚ
  deriving DecidableEq, Repr

/-- The sensor-fusion snapshot. -/
structure SensorFusionData where
  vehicles : List VehicleData
  deriving DecidableEq, Repr

/-- The constants of `constants.h` used by the generator. -/
structure Constants where
  kNrTrajectoryPoints : ℕ
  kNrPreviousPathPoints : ℕ
  kSimulationTimeStep : ℚ
  kLaneWidth : ℚ
  kMaxAcceleration : ℚ
  kTargetTrackingMinGap : ℚ
  kTargetTrackingMaxGap : ℚ
  kTargetLaneSpeed : List ℚ
  kMaxS : ℚ

/-- The operations of the `Map` class used by the generator. -/
structure Map where
  getLaneNumber : ℚ → ℤ
  s_min_diff : ℚ → ℚ → ℚ
  frenetToXy : ℚ → ℚ → ℚ × ℚ

/-- Library operations without a rational counterpart or without a source at hand, and the
values obtained by reads outside a container. -/
structure Library where
  /-- The function `std::sqrt`. -/
  sqrt : ℚ → ℚ
  /-- The overload `generateJerkMinTrajectory(p0, v0, v_target, T, coeffs)` of `utils.h`. -/
  generateJerkMinTrajectoryVelocity : ℚ → ℚ → ℚ → ℚ → List ℚ
  /-- Value of `deque[i]` for `i` outside the deque. -/
  strayDeque : ℕ → ℚ
  /-- Value of `vector[i]` for `i` outside the vector. -/
  strayVector : ℕ → ℚ
  /-- Value of `kTargetLaneSpeed[i]` for `i` outside the table. -/
  strayTable : ℤ → ℚ

/-- The state a `TrajectoryGenerator` keeps between calls. -/
structure TrajectoryGenerator where
  previous_s_ : List ℚ
  previous_d_ : List ℚ
  target_d_for_lane_change_ : ℚ
  deriving DecidableEq, Repr

/-- The constructor `TrajectoryGenerator::TrajectoryGenerator()`. -/
def TrajectoryGenerator.init : TrajectoryGenerator :=
  { previous_s_ := [], previous_d_ := [], target_d_for_lane_change_ := 0 }

/-! ## Container accesses -/

/-- The read `deque[i]`. -/
def dequeAt (lib : Library) (xs : List ℚ) (i : ℕ) : ℚ := xs.getD i (lib.strayDeque i)

/-- The read `vector[i]`. -/
def vectorAt (lib : Library) (xs : List ℚ) (i : ℕ) : ℚ := xs.getD i (lib.strayVector i)

/-- The read `deque.back()`. -/
def dequeBack (lib : Library) (xs : List ℚ) : ℚ := xs.getLast?.getD (lib.strayDeque 0)

/-- The call `deque.resize(n)`: keeps the first `n` elements, pads with `0.0` up to `n`. -/
def resize (xs : List ℚ) (n : ℕ) : List ℚ := xs.take n ++ List.replicate (n - xs.length) 0

/-- Whether `i` is an index of the table `kTargetLaneSpeed`. -/
def laneInTable (cfg : Constants) (i : ℤ) : Prop := 0 ≤ i ∧ i < (cfg.kTargetLaneSpeed.length : ℤ)

instance (cfg : Constants) (i : ℤ) : Decidable (laneInTable cfg i) := by
  unfold laneInTable; infer_instance

/-- The read `kTargetLaneSpeed[i]`. -/
def laneSpeedAt (cfg : Constants) (lib : Library) (i : ℤ) : ℚ :=
  if laneInTable cfg i then cfg.kTargetLaneSpeed.getD i.toNat (lib.strayTable i) else lib.strayTable i

/-! ## Finite-difference estimators -/

/-- The method `TrajectoryGenerator::estimateVelocity`. Both reads of the `else` branch are inside the
trajectory, which the definition checks. -/
def estimateVelocity (map : Map) (trajectory : List ℚ) (index : ℕ) (dt : ℚ) : ℚ :=
  if h : index < 1 ∨ index ≥ trajectory.length then
    0
  else
    have h1 : index < trajectory.length := by omega
    have h0 : index - 1 < trajectory.length := by omega
    map.s_min_diff trajectory[index] trajectory[index - 1] / dt

/-- The method `TrajectoryGenerator::estimateAcceleration`. -/
def estimateAcceleration (map : Map) (trajectory : List ℚ) (index : ℕ) (dt : ℚ) : ℚ :=
  if index < 2 ∨ index ≥ trajectory.length then
    0
  else
    let v1 := estimateVelocity map trajectory index dt
    let v2 := estimateVelocity map trajectory (index - 1) dt
    (v1 - v2) / dt

/-- The method `TrajectoryGenerator::getEgoVehicleFrenetFromPreviousTrajectory`. -/
def getEgoVehicleFrenetFromPreviousTrajectory (cfg : Constants) (map : Map) (lib : Library)
    (gen : TrajectoryGenerator) : EgoVehicleFrenet :=
  let last_index := subSizeT gen.previous_s_.length 1
  { s := dequeAt lib gen.previous_s_ last_index
    s_dot := estimateVelocity map gen.previous_s_ last_index cfg.kSimulationTimeStep
    s_ddot := estimateAcceleration map gen.previous_s_ last_index cfg.kSimulationTimeStep
    d := dequeAt lib gen.previous_d_ last_index
    d_dot := estimateVelocity map gen.previous_d_ last_index cfg.kSimulationTimeStep
    d_ddot := estimateAcceleration map gen.previous_d_ last_index cfg.kSimulationTimeStep }

/-! ## Polynomials (`utils.h`) -/

/-- Modelled from the spec: `evaluatePolynomial` of `utils.h`, whose source is missing; the
profile is "evaluated by Horner-style summation". -/
def evaluatePolynomial (coeffs : List ℚ) (t : ℚ) : ℚ :=
  coeffs.foldr (fun c acc => c + t * acc) 0

/-- Determinant of a 3×3 matrix given by its rows. -/
def det3 (a11 a12 a13 a21 a22 a23 a31 a32 a33 : ℚ) : ℚ :=
  a11 * (a22 * a33 - a23 * a32) - a12 * (a21 * a33 - a23 * a31) + a13 * (a21 * a32 - a22 * a31)

/-- Solution of the 3×3 linear system with the given rows and right-hand side (Cramer). -/
def solve3 (a11 a12 a13 a21 a22 a23 a31 a32 a33 b1 b2 b3 : ℚ) : ℚ × ℚ × ℚ :=
  let dt := det3 a11 a12 a13 a21 a22 a23 a31 a32 a33
  (det3 b1 a12 a13 b2 a22 a23 b3 a32 a33 / dt,
   det3 a11 b1 a13 a21 b2 a23 a31 b3 a33 / dt,
   det3 a11 a12 b1 a21 a22 b2 a31 a32 b3 / dt)

/-- Modelled from the spec: the full-boundary overload
`generateJerkMinTrajectory(p0, v0, a0, pf, vf, af, T, coeffs)` of `utils.h`, whose source is
missing. "Fixed: c0=p0, c1=v0, c2=a0/2. Remaining unknowns c3,c4,c5 solved from the 3×3 linear
system obtained by evaluating p(T), p'(T), p''(T) against pf, vf, af, after subtracting the
known contribution of c0,c1,c2." -/
def generateJerkMinTrajectory (p0 v0 a0 pf vf af T : ℚ) : List ℚ :=
  let c0 := p0
  let c1 := v0
  let c2 := a0 / 2
  let r1 := pf - (c0 + c1 * T + c2 * T ^ 2)
  let r2 := vf - (c1 + 2 * c2 * T)
  let r3 := af - 2 * c2
  let sol := solve3 (T ^ 3) (T ^ 4) (T ^ 5)
                    (3 * T ^ 2) (4 * T ^ 3) (5 * T ^ 4)
                    (6 * T) (12 * T ^ 2) (20 * T ^ 3) r1 r2 r3
  [c0, c1, c2, sol.1, sol.2.1, sol.2.2]

/-- Coefficients of the derivative of the polynomial with the given coefficients. -/
def derivative (coeffs : List ℚ) : List ℚ :=
  (coeffs.enum.map (fun p => (p.1 : ℚ) * p.2)).tail

/-! ## `generateTrajectory` -/

/-- The trim loop (lines 29-40): `n` iterations, each popping the front of both deques, left
at the first iteration that finds one of them empty. -/
def trimLoop : ℕ → List ℚ → List ℚ → List ℚ × List ℚ
  | 0, s, d => (s, d)
  | n + 1, s, d =>
    if !s.isEmpty && !d.isEmpty then trimLoop n s.tail d.tail else (s, d)

/-- The count `n_points_keep` (line 43). -/
def nPointsKeep (cfg : Constants) (previous_x : List ℚ) : ℕ :=
  min previous_x.length cfg.kNrPreviousPathPoints

/-- The generator after the trim loop and the two `resize` calls (lines 28-45). -/
def retainStep (cfg : Constants) (gen : TrajectoryGenerator) (previous_x : List ℚ) :
    TrajectoryGenerator :=
  let n_points_consumed := subSizeT cfg.kNrTrajectoryPoints previous_x.length
  let t := trimLoop n_points_consumed gen.previous_s_ gen.previous_d_
  let n_points_keep := nPointsKeep cfg previous_x
  { gen with previous_s_ := resize t.1 n_points_keep, previous_d_ := resize t.2 n_points_keep }

/-- The copy loop (lines 48-52) applied to one of the two previous paths. -/
def copyPrevious (lib : Library) (previous : List ℚ) (n_points_keep : ℕ) : List ℚ :=
  (List.range n_points_keep).foldl (fun out i => out ++ [vectorAt lib previous i]) []

/-- The start state `ego_vehicle_frenet` (lines 56-65); `gen` is the generator after the
retain step. -/
def startState (cfg : Constants) (map : Map) (lib : Library) (gen : TrajectoryGenerator)
    (ego_vehicle_data : EgoVehicleData) (previous_x : List ℚ) : EgoVehicleFrenet :=
  if previous_x.length < 2 then
    { s := ego_vehicle_data.s, d := ego_vehicle_data.d }
  else
    getEgoVehicleFrenetFromPreviousTrajectory cfg map lib gen

/-- One iteration of the loop over the vehicles (lines 84-107); the state is
`(min_gap, next_state.s_dot)`. -/
def trackVehicle (cfg : Constants) (map : Map) (lib : Library)
    (ego_vehicle_frenet : EgoVehicleFrenet) (st : ℚ × ℚ) (vehicle : VehicleData) : ℚ × ℚ :=
  let ego_lane := map.getLaneNumber ego_vehicle_frenet.d
  let vehicle_lane := map.getLaneNumber vehicle.d
  if vehicle_lane = ego_lane then
    let gap := map.s_min_diff vehicle.s ego_vehicle_frenet.s
    if gap > 0 ∧ gap < cfg.kTargetTrackingMaxGap ∧ gap < st.1 then
      let v := lib.sqrt (vehicle.vx * vehicle.vx + vehicle.vy * vehicle.vy)
      if gap < cfg.kTargetTrackingMinGap then (gap, 9 / 10 * v) else (gap, v)
    else st
  else st

/-- The loop over the vehicles (lines 81-108), started with `min_gap` and `next_state.s_dot`
at `std::numeric_limits<double>::max()`. -/
def trackLoop (cfg : Constants) (map : Map) (lib : Library)
    (ego_vehicle_frenet : EgoVehicleFrenet) (vehicles : List VehicleData) : ℚ × ℚ :=
  vehicles.foldl (trackVehicle cfg map lib ego_vehicle_frenet) (kDoubleMax, kDoubleMax)

/-- The branch on `next_action` (lines 69-123): the target state before the clamp to the lane
speed, and the generator with `target_d_for_lane_change_` as the branch leaves it. -/
def chooseTarget (cfg : Constants) (map : Map) (lib : Library) (gen : TrajectoryGenerator)
    (next_action : CarBehavior) (ego_vehicle_frenet : EgoVehicleFrenet)
    (sensor_fusion : SensorFusionData) : EgoVehicleFrenet × TrajectoryGenerator :=
  let next_state : EgoVehicleFrenet := { s_dot := kDoubleMax }
  match next_action with
  | CarBehavior.GO_STRAIGHT =>
    let d := ((map.getLaneNumber ego_vehicle_frenet.d : ℚ) + 1 / 2) * cfg.kLaneWidth
    let s_dot := (trackLoop cfg map lib ego_vehicle_frenet sensor_fusion.vehicles).2
    ({ next_state with d := d, s_dot := s_dot }, gen)
  | CarBehavior.CHANGE_LANE_LEFT =>
    let d := max 2 (((map.getLaneNumber ego_vehicle_frenet.d : ℚ) - 1 / 2) * cfg.kLaneWidth)
    ({ next_state with d := d }, { gen with target_d_for_lane_change_ := d })
  | CarBehavior.CHANGE_LANE_RIGHT =>
    let d := min 10 (((map.getLaneNumber ego_vehicle_frenet.d : ℚ) + 3 / 2) * cfg.kLaneWidth)
    ({ next_state with d := d }, { gen with target_d_for_lane_change_ := d })
  | CarBehavior.COMPLETE_LANE_CHANGE =>
    ({ next_state with d := gen.target_d_for_lane_change_ }, gen)

/-- The index with which line 127 reads `kTargetLaneSpeed`. -/
def laneSpeedIndex (map : Map) (next_state : EgoVehicleFrenet) : ℤ :=
  map.getLaneNumber next_state.d

/-- The clamp of the target speed to the lane speed (line 127). -/
def clampToLaneSpeed (cfg : Constants) (map : Map) (lib : Library)
    (next_state : EgoVehicleFrenet) : EgoVehicleFrenet :=
  { next_state with
    s_dot := min next_state.s_dot (laneSpeedAt cfg lib (laneSpeedIndex map next_state)) }

/-- The target state handed to `generateTrajectoryFollowLane` (lines 69-127) together with the
generator as the branch on the command leaves it. -/
def resolveTarget (cfg : Constants) (map : Map) (lib : Library) (gen : TrajectoryGenerator)
    (next_action : CarBehavior) (ego_vehicle_frenet : EgoVehicleFrenet)
    (sensor_fusion : SensorFusionData) : EgoVehicleFrenet × TrajectoryGenerator :=
  let r := chooseTarget cfg map lib gen next_action ego_vehicle_frenet sensor_fusion
  (clampToLaneSpeed cfg map lib r.1, r.2)

/-- State of the sampling loop: the generator and the two output vectors. -/
structure Sampling where
  gen : TrajectoryGenerator
  out_x : List ℚ
  out_y : List ℚ
  deriving DecidableEq, Repr

/-- One iteration of the sampling loop (lines 229-243). -/
def sampleStep (cfg : Constants) (map : Map) (coeffs_s coeffs_d : List ℚ)
    (st : Sampling) (i : ℕ) : Sampling :=
  let t := ((i + 1 : ℕ) : ℚ) * cfg.kSimulationTimeStep
  let s := fmod (evaluatePolynomial coeffs_s t) cfg.kMaxS
  let d := evaluatePolynomial coeffs_d t
  let xy := map.frenetToXy s d
  { gen := { st.gen with previous_s_ := st.gen.previous_s_ ++ [s],
                         previous_d_ := st.gen.previous_d_ ++ [d] }
    out_x := st.out_x ++ [xy.1]
    out_y := st.out_y ++ [xy.2] }

/-- The method `TrajectoryGenerator::generateTrajectoryFollowLane`. -/
def generateTrajectoryFollowLane (cfg : Constants) (map : Map) (lib : Library)
    (gen : TrajectoryGenerator) (ego_vehicle_data target_state : EgoVehicleFrenet)
    (n_new_points : ℕ) (out_x out_y : List ℚ) : Sampling :=
  let s0 := if gen.previous_s_.isEmpty then ego_vehicle_data.s else dequeBack lib gen.previous_s_
  let d0 := if gen.previous_s_.isEmpty then ego_vehicle_data.d else dequeBack lib gen.previous_d_
  let t_new_trajectory := (n_new_points : ℚ) * cfg.kSimulationTimeStep
  let v_max := ego_vehicle_data.s_dot + cfg.kMaxAcceleration * t_new_trajectory
  let v_target := min v_max target_state.s_dot
  let coeffs_s :=
    lib.generateJerkMinTrajectoryVelocity s0 ego_vehicle_data.s_dot v_target t_new_trajectory
  let coeffs_d :=
    generateJerkMinTrajectory d0 ego_vehicle_data.d_dot ego_vehicle_data.d_ddot
      target_state.d 0 0 t_new_trajectory
  (List.range n_new_points).foldl (sampleStep cfg map coeffs_s coeffs_d)
    { gen := gen, out_x := out_x, out_y := out_y }

/-- The target state of a call and the generator as the branch on the command leaves it:
lines 26-127 of `generateTrajectory` without the copy loop. -/
def targetOfCall (cfg : Constants) (map : Map) (lib : Library) (gen : TrajectoryGenerator)
    (next_action : CarBehavior) (ego_vehicle_data : EgoVehicleData)
    (sensor_fusion : SensorFusionData) (previous_x : List ℚ) :
    EgoVehicleFrenet × TrajectoryGenerator :=
  let gen1 := retainStep cfg gen previous_x
  let ego_vehicle_frenet := startState cfg map lib gen1 ego_vehicle_data previous_x
  resolveTarget cfg map lib gen1 next_action ego_vehicle_frenet sensor_fusion

/-- The method `TrajectoryGenerator::generateTrajectory`: the generator after the call and the two
output vectors. -/
def generateTrajectory (cfg : Constants) (map : Map) (lib : Library) (gen : TrajectoryGenerator)
    (next_action : CarBehavior) (ego_vehicle_data : EgoVehicleData)
    (sensor_fusion : SensorFusionData) (previous_x previous_y : List ℚ) : Sampling :=
  let gen1 := retainStep cfg gen previous_x
  let n_points_keep := nPointsKeep cfg previous_x
  let out_x := copyPrevious lib previous_x n_points_keep
  let out_y := copyPrevious lib previous_y n_points_keep
  let ego_vehicle_frenet := startState cfg map lib gen1 ego_vehicle_data previous_x
  let n_new_points := subSizeT cfg.kNrTrajectoryPoints n_points_keep
  let r := targetOfCall cfg map lib gen next_action ego_vehicle_data sensor_fusion previous_x
  generateTrajectoryFollowLane cfg map lib r.2 ego_vehicle_frenet r.1 n_new_points out_x out_y

/-- The sampled longitudinal value of step `i`. -/
def sampleS (cfg : Constants) (coeffs_s : List ℚ) (i : ℕ) : ℚ :=
  fmod (evaluatePolynomial coeffs_s (((i + 1 : ℕ) : ℚ) * cfg.kSimulationTimeStep)) cfg.kMaxS

/-- The sampled lateral value of step `i`. -/
def sampleD (cfg : Constants) (coeffs_d : List ℚ) (i : ℕ) : ℚ :=
  evaluatePolynomial coeffs_d (((i + 1 : ℕ) : ℚ) * cfg.kSimulationTimeStep)

/-! ## Lead-vehicle tracking as the specification words it -/

/-- The gap of a vehicle ahead of the ego start state (line 88). -/
def gapTo (map : Map) (ego_vehicle_frenet : EgoVehicleFrenet) (vehicle : VehicleData) : ℚ :=
  map.s_min_diff vehicle.s ego_vehicle_frenet.s

/-- A qualifying vehicle: same lane index as the ego start state and a gap strictly between
zero and `kTargetTrackingMaxGap`. -/
def qualifies (cfg : Constants) (map : Map) (ego_vehicle_frenet : EgoVehicleFrenet)
    (vehicle : VehicleData) : Prop :=
  map.getLaneNumber vehicle.d = map.getLaneNumber ego_vehicle_frenet.d ∧
    0 < gapTo map ego_vehicle_frenet vehicle ∧
    gapTo map ego_vehicle_frenet vehicle < cfg.kTargetTrackingMaxGap

instance (cfg : Constants) (map : Map) (ego_vehicle_frenet : EgoVehicleFrenet)
    (vehicle : VehicleData) : Decidable (qualifies cfg map ego_vehicle_frenet vehicle) := by
  unfold qualifies; infer_instance

/-- The lead vehicle in the words of the specification: among the qualifying vehicles the one
of minimum gap (`List.argmin` returns the first of several minimal elements). -/
def leadVehicle (cfg : Constants) (map : Map) (ego_vehicle_frenet : EgoVehicleFrenet)
    (vehicles : List VehicleData) : Option VehicleData :=
  (vehicles.filter (fun v => decide (qualifies cfg map ego_vehicle_frenet v))).argmin
    (gapTo map ego_vehicle_frenet)

/-- The scalar speed of a vehicle. -/
def speedOf (lib : Library) (vehicle : VehicleData) : ℚ :=
  lib.sqrt (vehicle.vx * vehicle.vx + vehicle.vy * vehicle.vy)

/-- The target speed the specification derives from the lead vehicle: `0.9` times its speed
below the minimum tracking gap, its speed otherwise. -/
def trackingSpeed (cfg : Constants) (map : Map) (lib : Library)
    (ego_vehicle_frenet : EgoVehicleFrenet) (lead : VehicleData) : ℚ :=
  if gapTo map ego_vehicle_frenet lead < cfg.kTargetTrackingMinGap then
    9 / 10 * speedOf lib lead
  else
    speedOf lib lead

/-- Centre of lane `k`. -/
def laneCentre (cfg : Constants) (k : ℤ) : ℚ := ((k : ℚ) + 1 / 2) * cfg.kLaneWidth

/-! ## Sequences of calls -/

/-- The arguments of one call of `generateTrajectory`. -/
structure Call where
  next_action : CarBehavior
  ego_vehicle_data : EgoVehicleData
  sensor_fusion : SensorFusionData
  previous_x : List ℚ
  previous_y : List ℚ

/-- The generator after one call. -/
def afterCall (cfg : Constants) (map : Map) (lib : Library) (gen : TrajectoryGenerator)
    (c : Call) : TrajectoryGenerator :=
  (generateTrajectory cfg map lib gen c.next_action c.ego_vehicle_data c.sensor_fusion
    c.previous_x c.previous_y).gen

/-- The generator after a sequence of calls. -/
def afterCalls (cfg : Constants) (map : Map) (lib : Library) (gen : TrajectoryGenerator)
    (cs : List Call) : TrajectoryGenerator :=
  cs.foldl (afterCall cfg map lib) gen

/-- The target lateral offset a call resolves. -/
def targetD (cfg : Constants) (map : Map) (lib : Library) (gen : TrajectoryGenerator)
    (c : Call) : ℚ :=
  (targetOfCall cfg map lib gen c.next_action c.ego_vehicle_data c.sensor_fusion c.previous_x).1.d

/-! ## Sample configurations -/

/-- A sample configuration with three lanes of width 4. -/
def sampleConstants : Constants :=
  { kNrTrajectoryPoints := 50
    kNrPreviousPathPoints := 10
    kSimulationTimeStep := 1 / 50
    kLaneWidth := 4
    kMaxAcceleration := 5
    kTargetTrackingMinGap := 10
    kTargetTrackingMaxGap := 30
    kTargetLaneSpeed := [21, 21, 20]
    kMaxS := 6945554 / 1000 }

/-- A sample map: the lane index is the floor of `d / width`, the distance wraps at `maxS`. -/
def sampleMap (width maxS : ℚ) : Map :=
  { getLaneNumber := fun d => ⌊d / width⌋
    s_min_diff := fun a b =>
      if a - b > maxS / 2 then a - b - maxS
      else if a - b < -(maxS / 2) then a - b + maxS
      else a - b
    frenetToXy := fun s d => (s, d) }

/-- A sample library: the root is exact on squares of naturals, the velocity profile has
constant acceleration, stray reads yield zero. -/
def sampleLibrary : Library :=
  { sqrt := fun q => (Nat.sqrt q.num.toNat : ℚ) / (Nat.sqrt q.den : ℚ)
    generateJerkMinTrajectoryVelocity := fun p0 v0 vT T => [p0, v0, (vT - v0) / (2 * T)]
    strayDeque := fun _ => 0
    strayVector := fun _ => 0
    strayTable := fun _ => 0 }

/-- A small configuration: four trajectory points, two retained points. -/
def smallConstants : Constants :=
  { sampleConstants with kNrTrajectoryPoints := 4, kNrPreviousPathPoints := 2 }

/-- A small configuration: four trajectory points, three retained points. -/
def mediumConstants : Constants :=
  { sampleConstants with kNrTrajectoryPoints := 4, kNrPreviousPathPoints := 3 }

/-! ## Branches of the estimators -/

/-- The condition under which `estimateVelocity` keeps its initial `0.0` (line 155). -/
def velocityFallback (trajectory : List ℚ) (index : ℕ) : Prop :=
  index < 1 ∨ index ≥ trajectory.length

instance (trajectory : List ℚ) (index : ℕ) : Decidable (velocityFallback trajectory index) := by
  unfold velocityFallback; infer_instance

/-- The condition under which `estimateAcceleration` keeps its initial `0.0` (line 173). -/
def accelerationFallback (trajectory : List ℚ) (index : ℕ) : Prop :=
  index < 2 ∨ index ≥ trajectory.length

instance (trajectory : List ℚ) (index : ℕ) :
    Decidable (accelerationFallback trajectory index) := by
  unfold accelerationFallback; infer_instance

/-! ## Reachable generators -/

/-- A call whose start state `ego_vehicle_frenet` has a lane index in `{0, 1, 2}`. -/
def startsOnRoad (cfg : Constants) (map : Map) (lib : Library) (gen : TrajectoryGenerator)
    (c : Call) : Prop :=
  map.getLaneNumber
      (startState cfg map lib (retainStep cfg gen c.previous_x) c.ego_vehicle_data
        c.previous_x).d = 0 ∨
  map.getLaneNumber
      (startState cfg map lib (retainStep cfg gen c.previous_x) c.ego_vehicle_data
        c.previous_x).d = 1 ∨
  map.getLaneNumber
      (startState cfg map lib (retainStep cfg gen c.previous_x) c.ego_vehicle_data
        c.previous_x).d = 2

/-- The generators reachable from the constructor by calls that start on the road. -/
inductive Reachable (cfg : Constants) (map : Map) (lib : Library) : TrajectoryGenerator → Prop
  | init : Reachable cfg map lib TrajectoryGenerator.init
  | call (gen : TrajectoryGenerator) (c : Call) :
      Reachable cfg map lib gen → startsOnRoad cfg map lib gen c →
      Reachable cfg map lib (afterCall cfg map lib gen c)

/-! ## Angle normalisation (`term2/projects/p1-extended-kalman-filter/src/tools.cpp`) -/

/-- The function `Tools::normalizeAngle`; the constants `kPi` and `k2Pi` of `constants.h` are
parameters. -/
def Tools.normalizeAngle {α : Type} [LinearOrderedField α] [FloorRing α] (kPi k2Pi : α)
    (x : α) : α :=
  let x_mod := fmod (x + kPi) k2Pi
  let x_mod := if x_mod < 0 then x_mod + k2Pi else x_mod
  x_mod - kPi


/-! # Theorems -/

/-! ## Basic facts -/

theorem subSizeT_eq (a b : ℕ) (ha : a < kSizeMod) (hb : b ≤ a) : subSizeT a b = a - b := by
  unfold subSizeT
  have hb2 : b < kSizeMod := lt_of_le_of_lt hb ha
  rw [Nat.mod_eq_of_lt ha, Nat.mod_eq_of_lt hb2]
  have : a + kSizeMod - b = (a - b) + kSizeMod := by omega
  rw [this, Nat.add_mod_right, Nat.mod_eq_of_lt]
  omega

theorem length_resize (xs : List ℚ) (n : ℕ) : (resize xs n).length = n := by
  unfold resize
  rw [List.length_append, List.length_take, List.length_replicate]
  omega

theorem foldl_push (f : ℕ → ℚ) (l : List ℕ) (init : List ℚ) :
    l.foldl (fun out i => out ++ [f i]) init = init ++ l.map f := by
  induction l generalizing init with
  | nil => simp
  | cons a l ih => simp [ih]

theorem copyPrevious_eq (lib : Library) (previous : List ℚ) (n : ℕ) :
    copyPrevious lib previous n = (List.range n).map (vectorAt lib previous) := by
  unfold copyPrevious
  rw [foldl_push]
  simp

theorem length_copyPrevious (lib : Library) (previous : List ℚ) (n : ℕ) :
    (copyPrevious lib previous n).length = n := by
  rw [copyPrevious_eq]; simp

theorem sampleLoop_eq (cfg : Constants) (map : Map) (coeffs_s coeffs_d : List ℚ)
    (l : List ℕ) (st : Sampling) :
    l.foldl (sampleStep cfg map coeffs_s coeffs_d) st =
      { gen := { previous_s_ := st.gen.previous_s_ ++ l.map (sampleS cfg coeffs_s)
                 previous_d_ := st.gen.previous_d_ ++ l.map (sampleD cfg coeffs_d)
                 target_d_for_lane_change_ := st.gen.target_d_for_lane_change_ }
        out_x := st.out_x ++
          l.map (fun i => (map.frenetToXy (sampleS cfg coeffs_s i) (sampleD cfg coeffs_d i)).1)
        out_y := st.out_y ++
          l.map (fun i => (map.frenetToXy (sampleS cfg coeffs_s i) (sampleD cfg coeffs_d i)).2) } := by
  induction l generalizing st with
  | nil => simp
  | cons a l ih =>
    rw [List.foldl_cons, ih]
    simp [sampleStep, sampleS, sampleD]

theorem followLane_eq (cfg : Constants) (map : Map) (lib : Library)
    (gen : TrajectoryGenerator) (ego_vehicle_data target_state : EgoVehicleFrenet)
    (n_new_points : ℕ) (out_x out_y : List ℚ) :
    ∃ coeffs_s coeffs_d : List ℚ,
      generateTrajectoryFollowLane cfg map lib gen ego_vehicle_data target_state n_new_points
          out_x out_y =
        { gen := { previous_s_ :=
                     gen.previous_s_ ++ (List.range n_new_points).map (sampleS cfg coeffs_s)
                   previous_d_ :=
                     gen.previous_d_ ++ (List.range n_new_points).map (sampleD cfg coeffs_d)
                   target_d_for_lane_change_ := gen.target_d_for_lane_change_ }
          out_x := out_x ++ (List.range n_new_points).map
            (fun i => (map.frenetToXy (sampleS cfg coeffs_s i) (sampleD cfg coeffs_d i)).1)
          out_y := out_y ++ (List.range n_new_points).map
            (fun i => (map.frenetToXy (sampleS cfg coeffs_s i) (sampleD cfg coeffs_d i)).2) } := by
  unfold generateTrajectoryFollowLane
  exact ⟨_, _, sampleLoop_eq cfg map _ _ _ _⟩

theorem nPointsKeep_le (cfg : Constants) (previous_x : List ℚ) :
    nPointsKeep cfg previous_x ≤ previous_x.length := by
  unfold nPointsKeep; exact min_le_left _ _

/-- C1: when `previous_x` and `previous_y` have the same length and that length is at most
`kNrTrajectoryPoints`, both outputs of `generateTrajectory` have exactly `kNrTrajectoryPoints`
entries, whatever the command, the ego state, the traffic and the stored history. -/
theorem generateTrajectory_output_length (cfg : Constants) (map : Map) (lib : Library)
    (gen : TrajectoryGenerator) (next_action : CarBehavior) (ego_vehicle_data : EgoVehicleData)
    (sensor_fusion : SensorFusionData) (previous_x previous_y : List ℚ)
    (hsize : cfg.kNrTrajectoryPoints < kSizeMod)
    (_hsame : previous_x.length = previous_y.length)
    (hle : previous_x.length ≤ cfg.kNrTrajectoryPoints) :
    (generateTrajectory cfg map lib gen next_action ego_vehicle_data sensor_fusion
        previous_x previous_y).out_x.length = cfg.kNrTrajectoryPoints ∧
    (generateTrajectory cfg map lib gen next_action ego_vehicle_data sensor_fusion
        previous_x previous_y).out_y.length = cfg.kNrTrajectoryPoints := by
  have hk : nPointsKeep cfg previous_x ≤ cfg.kNrTrajectoryPoints :=
    le_trans (nPointsKeep_le cfg previous_x) hle
  unfold generateTrajectory
  obtain ⟨cs, cd, h⟩ := followLane_eq cfg map lib
    (targetOfCall cfg map lib gen next_action ego_vehicle_data sensor_fusion previous_x).2
    (startState cfg map lib (retainStep cfg gen previous_x) ego_vehicle_data previous_x)
    (targetOfCall cfg map lib gen next_action ego_vehicle_data sensor_fusion previous_x).1
    (subSizeT cfg.kNrTrajectoryPoints (nPointsKeep cfg previous_x))
    (copyPrevious lib previous_x (nPointsKeep cfg previous_x))
    (copyPrevious lib previous_y (nPointsKeep cfg previous_x))
  rw [h]
  simp only [List.length_append, List.length_map, List.length_range, length_copyPrevious,
    subSizeT_eq _ _ hsize hk]
  omega

theorem generateTrajectory_output_length_witness :
    sampleConstants.kNrTrajectoryPoints < kSizeMod ∧
    (generateTrajectory sampleConstants (sampleMap 4 6945) sampleLibrary TrajectoryGenerator.init
        CarBehavior.GO_STRAIGHT { s := 100, d := 6 } { vehicles := [] }
        [1, 2, 3] [4, 5, 6]).out_x.length = sampleConstants.kNrTrajectoryPoints ∧
    (generateTrajectory sampleConstants (sampleMap 4 6945) sampleLibrary TrajectoryGenerator.init
        CarBehavior.GO_STRAIGHT { s := 100, d := 6 } { vehicles := [] }
        [1, 2, 3] [4, 5, 6]).out_y.length = sampleConstants.kNrTrajectoryPoints :=
  ⟨by decide,
   generateTrajectory_output_length sampleConstants (sampleMap 4 6945) sampleLibrary
     TrajectoryGenerator.init CarBehavior.GO_STRAIGHT { s := 100, d := 6 } { vehicles := [] }
     [1, 2, 3] [4, 5, 6] (by decide) (by decide) (by decide)⟩

theorem trackVehicle_of_not_qualifies (cfg : Constants) (map : Map) (lib : Library)
    (ego : EgoVehicleFrenet) (st : ℚ × ℚ) (v : VehicleData)
    (h : ¬ qualifies cfg map ego v) : trackVehicle cfg map lib ego st v = st := by
  unfold trackVehicle
  unfold qualifies gapTo at h
  by_cases hl : map.getLaneNumber v.d = map.getLaneNumber ego.d
  · have : ¬ (map.s_min_diff v.s ego.s > 0 ∧ map.s_min_diff v.s ego.s < cfg.kTargetTrackingMaxGap ∧
        map.s_min_diff v.s ego.s < st.1) := fun hc => h ⟨hl, hc.1, hc.2.1⟩
    simp [hl, this]
  · simp [hl]

theorem trackVehicle_of_qualifies (cfg : Constants) (map : Map) (lib : Library)
    (ego : EgoVehicleFrenet) (st : ℚ × ℚ) (v : VehicleData)
    (h : qualifies cfg map ego v) :
    trackVehicle cfg map lib ego st v =
      if gapTo map ego v < st.1 then (gapTo map ego v, trackingSpeed cfg map lib ego v)
      else st := by
  unfold trackVehicle trackingSpeed speedOf
  unfold qualifies at h
  unfold gapTo at h ⊢
  obtain ⟨hl, hpos, hmax⟩ := h
  by_cases hlt : map.s_min_diff v.s ego.s < st.1
  · by_cases hmin : map.s_min_diff v.s ego.s < cfg.kTargetTrackingMinGap <;>
      simp [hl, hpos, hmax, hlt, hmin]
  · simp [hl, hlt]

/-- The loop over the vehicles computes the gap and the tracking speed of the lead vehicle of
the specification. -/
theorem trackLoop_eq (cfg : Constants) (map : Map) (lib : Library) (ego : EgoVehicleFrenet)
    (hmax : cfg.kTargetTrackingMaxGap ≤ kDoubleMax) (vehicles : List VehicleData) :
    trackLoop cfg map lib ego vehicles =
      match leadVehicle cfg map ego vehicles with
      | none => (kDoubleMax, kDoubleMax)
      | some w => (gapTo map ego w, trackingSpeed cfg map lib ego w) := by
  induction vehicles using List.reverseRecOn with
  | nil => simp [trackLoop, leadVehicle]
  | append_singleton l a ih =>
    unfold trackLoop at ih ⊢
    unfold leadVehicle at ih ⊢
    rw [List.foldl_append, List.foldl_cons, List.foldl_nil, ih, List.filter_append]
    by_cases hq : qualifies cfg map ego a
    · have hf : List.filter (fun v => decide (qualifies cfg map ego v)) [a] = [a] := by
        simp [hq]
      rw [hf, List.argmin_concat, trackVehicle_of_qualifies _ _ _ _ _ _ hq]
      cases hm : List.argmin (gapTo map ego)
          (List.filter (fun v => decide (qualifies cfg map ego v)) l) with
      | none =>
        have : gapTo map ego a < kDoubleMax := lt_of_lt_of_le hq.2.2 hmax
        simp [this]
      | some c =>
        by_cases hlt : gapTo map ego a < gapTo map ego c <;> simp [hlt]
    · have hf : List.filter (fun v => decide (qualifies cfg map ego v)) [a] = [] := by
        simp [hq]
      rw [hf, List.append_nil, trackVehicle_of_not_qualifies _ _ _ _ _ _ hq]

/-- What `leadVehicle` selects: a qualifying vehicle of the list, of minimum gap among the
qualifying ones, and the first in list order among those of that gap. -/
theorem leadVehicle_spec (cfg : Constants) (map : Map) (ego : EgoVehicleFrenet)
    (vehicles : List VehicleData) (w : VehicleData)
    (h : leadVehicle cfg map ego vehicles = some w) :
    w ∈ vehicles ∧ qualifies cfg map ego w ∧
    (∀ u ∈ vehicles, qualifies cfg map ego u → gapTo map ego w ≤ gapTo map ego u) ∧
    (∀ u ∈ vehicles, qualifies cfg map ego u → gapTo map ego u = gapTo map ego w →
      (vehicles.filter (fun v => decide (qualifies cfg map ego v))).indexOf w ≤
        (vehicles.filter (fun v => decide (qualifies cfg map ego v))).indexOf u) := by
  unfold leadVehicle at h
  rw [List.argmin_eq_some_iff] at h
  obtain ⟨hmem, hmin, hfirst⟩ := h
  rw [List.mem_filter] at hmem
  refine ⟨hmem.1, by simpa using hmem.2, ?_, ?_⟩
  · intro u hu hq
    exact hmin u (List.mem_filter.mpr ⟨hu, by simpa using hq⟩)
  · intro u hu hq hgap
    exact hfirst u (List.mem_filter.mpr ⟨hu, by simpa using hq⟩) (le_of_eq hgap)

theorem leadVehicle_isSome (cfg : Constants) (map : Map) (ego : EgoVehicleFrenet)
    (vehicles : List VehicleData) (h : ∃ v ∈ vehicles, qualifies cfg map ego v) :
    ∃ w, leadVehicle cfg map ego vehicles = some w := by
  obtain ⟨v, hv, hq⟩ := h
  cases hm : leadVehicle cfg map ego vehicles with
  | some w => exact ⟨w, rfl⟩
  | none =>
    unfold leadVehicle at hm
    rw [List.argmin_eq_none] at hm
    have : v ∈ List.filter (fun v => decide (qualifies cfg map ego v)) vehicles :=
      List.mem_filter.mpr ⟨hv, by simpa using hq⟩
    rw [hm] at this
    exact absurd this (List.not_mem_nil _)

/-- C2: for `GO_STRAIGHT` and a traffic list with at least one qualifying vehicle, the target
speed before the clamp is the tracking speed of the lead vehicle (the qualifying vehicle of
minimum gap, the first one when gaps tie): `0.9` times its speed below `kTargetTrackingMinGap`,
its speed otherwise. It is the same for every list with the same qualifying vehicles in the
same order, and for every reordering of the list when vehicles of equal gap have equal speed.
The resolved target speed is the minimum of that value and the speed read for the target lane. -/
theorem goStraight_tracks_lead_vehicle (cfg : Constants) (map : Map) (lib : Library)
    (gen : TrajectoryGenerator) (ego_vehicle_frenet : EgoVehicleFrenet)
    (sensor_fusion : SensorFusionData)
    (hmax : cfg.kTargetTrackingMaxGap ≤ kDoubleMax)
    (hq : ∃ v ∈ sensor_fusion.vehicles, qualifies cfg map ego_vehicle_frenet v) :
    ∃ w, leadVehicle cfg map ego_vehicle_frenet sensor_fusion.vehicles = some w ∧
      (chooseTarget cfg map lib gen CarBehavior.GO_STRAIGHT ego_vehicle_frenet
        sensor_fusion).1.s_dot = trackingSpeed cfg map lib ego_vehicle_frenet w ∧
      (∀ others : List VehicleData,
        others.filter (fun v => decide (qualifies cfg map ego_vehicle_frenet v)) =
          sensor_fusion.vehicles.filter
            (fun v => decide (qualifies cfg map ego_vehicle_frenet v)) →
        (chooseTarget cfg map lib gen CarBehavior.GO_STRAIGHT ego_vehicle_frenet
          { vehicles := others }).1.s_dot = trackingSpeed cfg map lib ego_vehicle_frenet w) ∧
      (∀ others : List VehicleData, others.Perm sensor_fusion.vehicles →
        (∀ u ∈ sensor_fusion.vehicles, ∀ v ∈ sensor_fusion.vehicles,
          qualifies cfg map ego_vehicle_frenet u → qualifies cfg map ego_vehicle_frenet v →
          gapTo map ego_vehicle_frenet u = gapTo map ego_vehicle_frenet v →
          speedOf lib u = speedOf lib v) →
        (chooseTarget cfg map lib gen CarBehavior.GO_STRAIGHT ego_vehicle_frenet
          { vehicles := others }).1.s_dot = trackingSpeed cfg map lib ego_vehicle_frenet w) ∧
      (resolveTarget cfg map lib gen CarBehavior.GO_STRAIGHT ego_vehicle_frenet
        sensor_fusion).1.s_dot =
        min (trackingSpeed cfg map lib ego_vehicle_frenet w)
          (laneSpeedAt cfg lib (map.getLaneNumber
            (resolveTarget cfg map lib gen CarBehavior.GO_STRAIGHT ego_vehicle_frenet
              sensor_fusion).1.d)) := by
  obtain ⟨w, hw⟩ := leadVehicle_isSome cfg map ego_vehicle_frenet sensor_fusion.vehicles hq
  have hpre : ∀ vs w', leadVehicle cfg map ego_vehicle_frenet vs = some w' →
      (chooseTarget cfg map lib gen CarBehavior.GO_STRAIGHT ego_vehicle_frenet
        { vehicles := vs }).1.s_dot = trackingSpeed cfg map lib ego_vehicle_frenet w' := by
    intro vs w' h
    simp only [chooseTarget]
    rw [trackLoop_eq cfg map lib ego_vehicle_frenet hmax, h]
  refine ⟨w, hw, hpre _ _ hw, ?_, ?_, ?_⟩
  · intro others hsame
    apply hpre
    unfold leadVehicle at hw ⊢
    rw [hsame]; exact hw
  · intro others hperm hties
    obtain ⟨hwm, hwq, hwmin, -⟩ := leadVehicle_spec cfg map ego_vehicle_frenet _ w hw
    obtain ⟨w', hw'⟩ := leadVehicle_isSome cfg map ego_vehicle_frenet others
      ⟨w, hperm.symm.subset hwm, hwq⟩
    obtain ⟨hwm', hwq', hwmin', -⟩ := leadVehicle_spec cfg map ego_vehicle_frenet _ w' hw'
    have hgap : gapTo map ego_vehicle_frenet w' = gapTo map ego_vehicle_frenet w :=
      le_antisymm (hwmin' w (hperm.symm.subset hwm) hwq) (hwmin w' (hperm.subset hwm') hwq')
    have hspeed : speedOf lib w' = speedOf lib w :=
      hties w' (hperm.subset hwm') w hwm hwq' hwq hgap
    rw [hpre _ _ hw']
    unfold trackingSpeed
    rw [hgap, hspeed]
  · have h1 := hpre _ _ hw
    simp only [resolveTarget, clampToLaneSpeed, laneSpeedIndex]
    rw [h1]

theorem goStraight_tracks_lead_vehicle_witness :
    sampleConstants.kTargetTrackingMaxGap ≤ kDoubleMax ∧
    (∃ v ∈ [({ id := 1, x := 0, y := 0, vx := 6, vy := 8, s := 105, d := 5 } : VehicleData)],
      qualifies sampleConstants (sampleMap 4 6945) { s := 100, d := 6 } v) ∧
    (resolveTarget sampleConstants (sampleMap 4 6945) sampleLibrary TrajectoryGenerator.init
      CarBehavior.GO_STRAIGHT { s := 100, d := 6 }
      { vehicles := [{ id := 1, x := 0, y := 0, vx := 6, vy := 8, s := 105, d := 5 }] }).1.s_dot
      = 9 := by
  have hmax : sampleConstants.kTargetTrackingMaxGap ≤ kDoubleMax := by
    unfold kDoubleMax sampleConstants; norm_num
  have hq : ∃ v ∈ [({ id := 1, x := 0, y := 0, vx := 6, vy := 8, s := 105, d := 5 } :
      VehicleData)], qualifies sampleConstants (sampleMap 4 6945) { s := 100, d := 6 } v := by
    refine ⟨_, List.mem_singleton_self _, ?_⟩
    simp only [qualifies, gapTo, sampleMap, sampleConstants]
    refine ⟨?_, ?_, ?_⟩
    · rw [Int.floor_eq_iff.mpr (show (((1 : ℤ) : ℚ) ≤ 5 / 4 ∧ (5 : ℚ) / 4 < ((1 : ℤ) : ℚ) + 1) by
        norm_num), Int.floor_eq_iff.mpr (show (((1 : ℤ) : ℚ) ≤ 6 / 4 ∧
          (6 : ℚ) / 4 < ((1 : ℤ) : ℚ) + 1) by norm_num)]
    · norm_num
    · norm_num
  refine ⟨hmax, hq, ?_⟩
  obtain ⟨w, hw, -, -, -, hres⟩ := goStraight_tracks_lead_vehicle sampleConstants
    (sampleMap 4 6945) sampleLibrary TrajectoryGenerator.init { s := 100, d := 6 }
    { vehicles := [{ id := 1, x := 0, y := 0, vx := 6, vy := 8, s := 105, d := 5 }] } hmax hq
  have hw' : w = { id := 1, x := 0, y := 0, vx := 6, vy := 8, s := 105, d := 5 } := by
    have := (leadVehicle_spec _ _ _ _ w hw).1
    simpa using this
  rw [hres, hw']
  have hd : (resolveTarget sampleConstants (sampleMap 4 6945) sampleLibrary
      TrajectoryGenerator.init CarBehavior.GO_STRAIGHT { s := 100, d := 6 }
      { vehicles := [{ id := 1, x := 0, y := 0, vx := 6, vy := 8, s := 105, d := 5 }] }).1.d
      = 6 := by
    simp only [resolveTarget, clampToLaneSpeed, chooseTarget, sampleMap, sampleConstants]
    rw [Int.floor_eq_iff.mpr (show (((1 : ℤ) : ℚ) ≤ 6 / 4 ∧
          (6 : ℚ) / 4 < ((1 : ℤ) : ℚ) + 1) by norm_num)]
    norm_num
  rw [hd]
  have hl : laneSpeedAt sampleConstants sampleLibrary ((sampleMap 4 6945).getLaneNumber 6) = 21 := by
    simp only [sampleMap]
    rw [Int.floor_eq_iff.mpr (show (((1 : ℤ) : ℚ) ≤ 6 / 4 ∧
          (6 : ℚ) / 4 < ((1 : ℤ) : ℚ) + 1) by norm_num)]
    simp [laneSpeedAt, laneInTable, sampleConstants]
  rw [hl]
  simp only [trackingSpeed, gapTo, speedOf, sampleMap, sampleConstants, sampleLibrary]
  have h100 : Int.toNat 100 = 100 := rfl
  norm_num [h100]

/-- C3: for the lane width 4, the width that the literal road bounds `2.0` and `10.0` of
lines 112 and 117 belong to, and an ego start state in lane `L ∈ {0, 1, 2}`,
`CHANGE_LANE_LEFT` resolves the target `d` to the centre of lane `max (L - 1) 0` and
`CHANGE_LANE_RIGHT` resolves it to the centre of lane `min (L + 1) 2`. -/
theorem changeLane_resolves_to_lane_centre (cfg : Constants) (map : Map) (lib : Library)
    (gen : TrajectoryGenerator) (ego_vehicle_frenet : EgoVehicleFrenet)
    (sensor_fusion : SensorFusionData)
    (hwidth : cfg.kLaneWidth = 4)
    (hlane : map.getLaneNumber ego_vehicle_frenet.d = 0 ∨
      map.getLaneNumber ego_vehicle_frenet.d = 1 ∨ map.getLaneNumber ego_vehicle_frenet.d = 2) :
    (resolveTarget cfg map lib gen CarBehavior.CHANGE_LANE_LEFT ego_vehicle_frenet
      sensor_fusion).1.d =
      laneCentre cfg (max (map.getLaneNumber ego_vehicle_frenet.d - 1) 0) ∧
    (resolveTarget cfg map lib gen CarBehavior.CHANGE_LANE_RIGHT ego_vehicle_frenet
      sensor_fusion).1.d =
      laneCentre cfg (min (map.getLaneNumber ego_vehicle_frenet.d + 1) 2) := by
  simp only [resolveTarget, clampToLaneSpeed, chooseTarget, laneCentre, hwidth]
  rcases hlane with h | h | h <;> rw [h] <;> norm_num

theorem changeLane_resolves_to_lane_centre_witness :
    sampleConstants.kLaneWidth = 4 ∧
    ((sampleMap 4 6945).getLaneNumber (6 : ℚ) = 0 ∨ (sampleMap 4 6945).getLaneNumber (6 : ℚ) = 1 ∨
      (sampleMap 4 6945).getLaneNumber (6 : ℚ) = 2) ∧
    (resolveTarget sampleConstants (sampleMap 4 6945) sampleLibrary TrajectoryGenerator.init
      CarBehavior.CHANGE_LANE_LEFT { s := 100, d := 6 } { vehicles := [] }).1.d =
      laneCentre sampleConstants (max ((sampleMap 4 6945).getLaneNumber (6 : ℚ) - 1) 0) ∧
    (resolveTarget sampleConstants (sampleMap 4 6945) sampleLibrary TrajectoryGenerator.init
      CarBehavior.CHANGE_LANE_RIGHT { s := 100, d := 6 } { vehicles := [] }).1.d =
      laneCentre sampleConstants (min ((sampleMap 4 6945).getLaneNumber (6 : ℚ) + 1) 2) := by
  have hlane : (sampleMap 4 6945).getLaneNumber (6 : ℚ) = 1 := by
    simp only [sampleMap]
    rw [Int.floor_eq_iff]; norm_num
  exact ⟨rfl, Or.inr (Or.inl hlane),
    changeLane_resolves_to_lane_centre sampleConstants (sampleMap 4 6945) sampleLibrary
      TrajectoryGenerator.init { s := 100, d := 6 } { vehicles := [] } rfl
      (Or.inr (Or.inl hlane))⟩

theorem retainStep_target (cfg : Constants) (gen : TrajectoryGenerator) (previous_x : List ℚ) :
    (retainStep cfg gen previous_x).target_d_for_lane_change_ = gen.target_d_for_lane_change_ :=
  rfl

theorem followLane_target (cfg : Constants) (map : Map) (lib : Library)
    (gen : TrajectoryGenerator) (ego_vehicle_data target_state : EgoVehicleFrenet)
    (n_new_points : ℕ) (out_x out_y : List ℚ) :
    (generateTrajectoryFollowLane cfg map lib gen ego_vehicle_data target_state n_new_points
      out_x out_y).gen.target_d_for_lane_change_ = gen.target_d_for_lane_change_ := by
  obtain ⟨cs, cd, h⟩ := followLane_eq cfg map lib gen ego_vehicle_data target_state
    n_new_points out_x out_y
  rw [h]

/-- The stored target after a call is the one the branch on the command leaves. -/
theorem afterCall_target (cfg : Constants) (map : Map) (lib : Library)
    (gen : TrajectoryGenerator) (c : Call) :
    (afterCall cfg map lib gen c).target_d_for_lane_change_ =
      (targetOfCall cfg map lib gen c.next_action c.ego_vehicle_data c.sensor_fusion
        c.previous_x).2.target_d_for_lane_change_ := by
  unfold afterCall generateTrajectory
  exact followLane_target _ _ _ _ _ _ _ _ _

/-- The commands `GO_STRAIGHT` and `COMPLETE_LANE_CHANGE` do not write the stored target. -/
theorem afterCall_target_unchanged (cfg : Constants) (map : Map) (lib : Library)
    (gen : TrajectoryGenerator) (c : Call)
    (h : c.next_action = CarBehavior.GO_STRAIGHT ∨
      c.next_action = CarBehavior.COMPLETE_LANE_CHANGE) :
    (afterCall cfg map lib gen c).target_d_for_lane_change_ = gen.target_d_for_lane_change_ := by
  rw [afterCall_target]
  rcases h with h | h <;>
    simp [targetOfCall, resolveTarget, chooseTarget, h, retainStep_target]

/-- The commands `CHANGE_LANE_LEFT` and `CHANGE_LANE_RIGHT` store the target `d` they resolve. -/
theorem afterCall_target_written (cfg : Constants) (map : Map) (lib : Library)
    (gen : TrajectoryGenerator) (c : Call)
    (h : c.next_action = CarBehavior.CHANGE_LANE_LEFT ∨
      c.next_action = CarBehavior.CHANGE_LANE_RIGHT) :
    (afterCall cfg map lib gen c).target_d_for_lane_change_ = targetD cfg map lib gen c := by
  rw [afterCall_target]
  unfold targetD
  rcases h with h | h <;>
    simp [targetOfCall, resolveTarget, clampToLaneSpeed, chooseTarget, h]

theorem afterCalls_target_unchanged (cfg : Constants) (map : Map) (lib : Library)
    (cs : List Call) (gen : TrajectoryGenerator)
    (h : ∀ c ∈ cs, c.next_action = CarBehavior.GO_STRAIGHT ∨
      c.next_action = CarBehavior.COMPLETE_LANE_CHANGE) :
    (afterCalls cfg map lib gen cs).target_d_for_lane_change_ =
      gen.target_d_for_lane_change_ := by
  induction cs generalizing gen with
  | nil => rfl
  | cons c cs ih =>
    unfold afterCalls at ih ⊢
    rw [List.foldl_cons, ih _ (fun c' hc' => h c' (List.mem_cons_of_mem _ hc'))]
    exact afterCall_target_unchanged cfg map lib gen c (h c (List.mem_cons_self _ _))

/-- The command `COMPLETE_LANE_CHANGE` resolves the stored target. -/
theorem targetD_complete (cfg : Constants) (map : Map) (lib : Library)
    (gen : TrajectoryGenerator) (c : Call)
    (h : c.next_action = CarBehavior.COMPLETE_LANE_CHANGE) :
    targetD cfg map lib gen c = gen.target_d_for_lane_change_ := by
  unfold targetD
  simp [targetOfCall, resolveTarget, clampToLaneSpeed, chooseTarget, h, retainStep_target]

/-- C4: after a `CHANGE_LANE_LEFT` or `CHANGE_LANE_RIGHT` call that resolved the target `d*`,
and after any number of `GO_STRAIGHT` or `COMPLETE_LANE_CHANGE` calls with arbitrary
arguments, a `COMPLETE_LANE_CHANGE` call resolves its target `d` to `d*`, whatever its ego
state and traffic; a `GO_STRAIGHT` or `COMPLETE_LANE_CHANGE` call leaves the stored value as
it found it, and a lane-change call stores the value it resolves. -/
theorem pending_target_kept_until_complete (cfg : Constants) (map : Map) (lib : Library)
    (gen : TrajectoryGenerator) (first : Call) (between : List Call) (last : Call)
    (hfirst : first.next_action = CarBehavior.CHANGE_LANE_LEFT ∨
      first.next_action = CarBehavior.CHANGE_LANE_RIGHT)
    (hbetween : ∀ c ∈ between, c.next_action = CarBehavior.GO_STRAIGHT ∨
      c.next_action = CarBehavior.COMPLETE_LANE_CHANGE)
    (hlast : last.next_action = CarBehavior.COMPLETE_LANE_CHANGE) :
    targetD cfg map lib (afterCalls cfg map lib (afterCall cfg map lib gen first) between) last
      = targetD cfg map lib gen first ∧
    (afterCall cfg map lib gen first).target_d_for_lane_change_ = targetD cfg map lib gen first ∧
    (∀ (g : TrajectoryGenerator) (c : Call),
      c.next_action = CarBehavior.GO_STRAIGHT ∨
        c.next_action = CarBehavior.COMPLETE_LANE_CHANGE →
      (afterCall cfg map lib g c).target_d_for_lane_change_ = g.target_d_for_lane_change_) := by
  refine ⟨?_, afterCall_target_written cfg map lib gen first hfirst,
    fun g c h => afterCall_target_unchanged cfg map lib g c h⟩
  rw [targetD_complete _ _ _ _ _ hlast, afterCalls_target_unchanged _ _ _ _ _ hbetween,
    afterCall_target_written _ _ _ _ _ hfirst]

theorem pending_target_kept_until_complete_witness :
    targetD sampleConstants (sampleMap 4 6945) sampleLibrary
      (afterCalls sampleConstants (sampleMap 4 6945) sampleLibrary
        (afterCall sampleConstants (sampleMap 4 6945) sampleLibrary TrajectoryGenerator.init
          { next_action := CarBehavior.CHANGE_LANE_LEFT, ego_vehicle_data := { s := 100, d := 6 },
            sensor_fusion := { vehicles := [] }, previous_x := [], previous_y := [] })
        [{ next_action := CarBehavior.GO_STRAIGHT, ego_vehicle_data := { s := 101, d := 5 },
           sensor_fusion :=
             { vehicles := [{ id := 1, x := 0, y := 0, vx := 6, vy := 8, s := 105, d := 5 }] },
           previous_x := [1, 2], previous_y := [3, 4] }])
      { next_action := CarBehavior.COMPLETE_LANE_CHANGE, ego_vehicle_data := { s := 102, d := 3 },
        sensor_fusion := { vehicles := [] }, previous_x := [1], previous_y := [3] }
    = targetD sampleConstants (sampleMap 4 6945) sampleLibrary TrajectoryGenerator.init
        { next_action := CarBehavior.CHANGE_LANE_LEFT, ego_vehicle_data := { s := 100, d := 6 },
          sensor_fusion := { vehicles := [] }, previous_x := [], previous_y := [] } :=
  (pending_target_kept_until_complete sampleConstants (sampleMap 4 6945) sampleLibrary
    TrajectoryGenerator.init
    { next_action := CarBehavior.CHANGE_LANE_LEFT, ego_vehicle_data := { s := 100, d := 6 },
      sensor_fusion := { vehicles := [] }, previous_x := [], previous_y := [] }
    [{ next_action := CarBehavior.GO_STRAIGHT, ego_vehicle_data := { s := 101, d := 5 },
       sensor_fusion :=
         { vehicles := [{ id := 1, x := 0, y := 0, vx := 6, vy := 8, s := 105, d := 5 }] },
       previous_x := [1, 2], previous_y := [3, 4] }]
    { next_action := CarBehavior.COMPLETE_LANE_CHANGE, ego_vehicle_data := { s := 102, d := 3 },
      sensor_fusion := { vehicles := [] }, previous_x := [1], previous_y := [3] }
    (Or.inl rfl) (by simp) rfl).1

theorem laneSpeedAt_of_entry (cfg : Constants) (lib : Library) (i : ℤ) (limit : ℚ)
    (h0 : 0 ≤ i) (h : cfg.kTargetLaneSpeed[i.toNat]? = some limit) :
    laneSpeedAt cfg lib i = limit := by
  have hlt : i.toNat < cfg.kTargetLaneSpeed.length := by
    by_contra hc
    rw [List.getElem?_eq_none (not_lt.mp hc)] at h
    exact Option.noConfusion h
  have hin : laneInTable cfg i := ⟨h0, by omega⟩
  unfold laneSpeedAt
  rw [if_pos hin, List.getD_eq_getElem?_getD, h]
  rfl

theorem trackLoop_of_none_qualifies (cfg : Constants) (map : Map) (lib : Library)
    (ego : EgoVehicleFrenet) (vehicles : List VehicleData)
    (h : ∀ v ∈ vehicles, ¬ qualifies cfg map ego v) :
    trackLoop cfg map lib ego vehicles = (kDoubleMax, kDoubleMax) := by
  unfold trackLoop
  generalize (kDoubleMax, kDoubleMax) = st
  induction vehicles generalizing st with
  | nil => rfl
  | cons a l ih =>
    rw [List.foldl_cons,
      trackVehicle_of_not_qualifies _ _ _ _ _ _ (h a (List.mem_cons_self _ _))]
    exact ih (fun v hv => h v (List.mem_cons_of_mem _ hv)) st

/-- C5: when the lane index of the resolved target `d` is inside the table, with `limit` the
table entry at that index (a `double`, hence at most `kDoubleMax`), the target speed handed
to `generateTrajectoryFollowLane` is at most `limit` for every command; it is `limit` for the
three lane-change commands with any traffic, and for `GO_STRAIGHT` when no vehicle is in the
ego lane with a gap strictly between 0 and `kTargetTrackingMaxGap`. -/
theorem resolved_speed_within_lane_limit (cfg : Constants) (map : Map) (lib : Library)
    (gen : TrajectoryGenerator) (next_action : CarBehavior)
    (ego_vehicle_frenet : EgoVehicleFrenet) (sensor_fusion : SensorFusionData) (limit : ℚ)
    (hlow : 0 ≤ map.getLaneNumber
      (resolveTarget cfg map lib gen next_action ego_vehicle_frenet sensor_fusion).1.d)
    (hentry : cfg.kTargetLaneSpeed[(map.getLaneNumber
      (resolveTarget cfg map lib gen next_action ego_vehicle_frenet
        sensor_fusion).1.d).toNat]? = some limit)
    (hdouble : limit ≤ kDoubleMax) :
    (resolveTarget cfg map lib gen next_action ego_vehicle_frenet sensor_fusion).1.s_dot
      ≤ limit ∧
    (next_action ≠ CarBehavior.GO_STRAIGHT →
      (resolveTarget cfg map lib gen next_action ego_vehicle_frenet sensor_fusion).1.s_dot
        = limit) ∧
    (next_action = CarBehavior.GO_STRAIGHT →
      (∀ v ∈ sensor_fusion.vehicles, ¬ qualifies cfg map ego_vehicle_frenet v) →
      (resolveTarget cfg map lib gen next_action ego_vehicle_frenet sensor_fusion).1.s_dot
        = limit) := by
  have hspeed : (resolveTarget cfg map lib gen next_action ego_vehicle_frenet
      sensor_fusion).1.s_dot =
      min (chooseTarget cfg map lib gen next_action ego_vehicle_frenet sensor_fusion).1.s_dot
        limit := by
    have := laneSpeedAt_of_entry cfg lib _ limit hlow hentry
    simp only [resolveTarget, clampToLaneSpeed, laneSpeedIndex] at this ⊢
    rw [this]
  refine ⟨?_, ?_, ?_⟩
  · rw [hspeed]; exact min_le_right _ _
  · intro hne
    rw [hspeed]
    cases next_action with
    | GO_STRAIGHT => exact absurd rfl hne
    | CHANGE_LANE_LEFT => simpa [chooseTarget] using hdouble
    | CHANGE_LANE_RIGHT => simpa [chooseTarget] using hdouble
    | COMPLETE_LANE_CHANGE => simpa [chooseTarget] using hdouble
  · intro hgo hnone
    rw [hspeed]
    subst hgo
    simp only [chooseTarget]
    rw [trackLoop_of_none_qualifies cfg map lib ego_vehicle_frenet _ hnone]
    simpa using hdouble

theorem resolved_speed_within_lane_limit_witness :
    (resolveTarget sampleConstants (sampleMap 4 6945) sampleLibrary TrajectoryGenerator.init
      CarBehavior.CHANGE_LANE_RIGHT { s := 100, d := 6 } { vehicles := [] }).1.d = 10 ∧
    (0 : ℤ) ≤ (sampleMap 4 6945).getLaneNumber 10 ∧
    sampleConstants.kTargetLaneSpeed[((sampleMap 4 6945).getLaneNumber 10).toNat]? = some 20 ∧
    (20 : ℚ) ≤ kDoubleMax ∧
    (resolveTarget sampleConstants (sampleMap 4 6945) sampleLibrary TrajectoryGenerator.init
      CarBehavior.CHANGE_LANE_RIGHT { s := 100, d := 6 } { vehicles := [] }).1.s_dot = 20 := by
  have hd : (resolveTarget sampleConstants (sampleMap 4 6945) sampleLibrary
      TrajectoryGenerator.init CarBehavior.CHANGE_LANE_RIGHT { s := 100, d := 6 }
      { vehicles := [] }).1.d = 10 := by
    have h6 : (sampleMap 4 6945).getLaneNumber (6 : ℚ) = 1 := by
      simp only [sampleMap]
      rw [Int.floor_eq_iff]; norm_num
    simp only [resolveTarget, clampToLaneSpeed, chooseTarget, h6]
    norm_num [sampleConstants]
  have h10 : (sampleMap 4 6945).getLaneNumber (10 : ℚ) = 2 := by
    simp only [sampleMap]
    rw [Int.floor_eq_iff]; norm_num
  have hlow : (0 : ℤ) ≤ (sampleMap 4 6945).getLaneNumber 10 := by rw [h10]; decide
  have hentry : sampleConstants.kTargetLaneSpeed[((sampleMap 4 6945).getLaneNumber 10).toNat]?
      = some 20 := by rw [h10]; rfl
  have hdouble : (20 : ℚ) ≤ kDoubleMax := by unfold kDoubleMax; norm_num
  refine ⟨hd, hlow, hentry, hdouble, ?_⟩
  exact (resolved_speed_within_lane_limit sampleConstants (sampleMap 4 6945) sampleLibrary
    TrajectoryGenerator.init CarBehavior.CHANGE_LANE_RIGHT { s := 100, d := 6 }
    { vehicles := [] } 20 (by rw [hd]; exact hlow) (by rw [hd]; exact hentry) hdouble).2.1
    (by decide)

/-- Cramer's rule solves the system when the determinant is not zero. -/
theorem solve3_spec (a11 a12 a13 a21 a22 a23 a31 a32 a33 b1 b2 b3 : ℚ)
    (hdet : det3 a11 a12 a13 a21 a22 a23 a31 a32 a33 ≠ 0) :
    a11 * (solve3 a11 a12 a13 a21 a22 a23 a31 a32 a33 b1 b2 b3).1 +
      a12 * (solve3 a11 a12 a13 a21 a22 a23 a31 a32 a33 b1 b2 b3).2.1 +
      a13 * (solve3 a11 a12 a13 a21 a22 a23 a31 a32 a33 b1 b2 b3).2.2 = b1 ∧
    a21 * (solve3 a11 a12 a13 a21 a22 a23 a31 a32 a33 b1 b2 b3).1 +
      a22 * (solve3 a11 a12 a13 a21 a22 a23 a31 a32 a33 b1 b2 b3).2.1 +
      a23 * (solve3 a11 a12 a13 a21 a22 a23 a31 a32 a33 b1 b2 b3).2.2 = b2 ∧
    a31 * (solve3 a11 a12 a13 a21 a22 a23 a31 a32 a33 b1 b2 b3).1 +
      a32 * (solve3 a11 a12 a13 a21 a22 a23 a31 a32 a33 b1 b2 b3).2.1 +
      a33 * (solve3 a11 a12 a13 a21 a22 a23 a31 a32 a33 b1 b2 b3).2.2 = b3 := by
  simp only [solve3]
  generalize hD : det3 a11 a12 a13 a21 a22 a23 a31 a32 a33 = D at hdet
  refine ⟨?_, ?_, ?_⟩ <;>
    · field_simp
      rw [← hD]
      simp only [det3]
      ring

theorem det3_jerkMin (T : ℚ) :
    det3 (T ^ 3) (T ^ 4) (T ^ 5) (3 * T ^ 2) (4 * T ^ 3) (5 * T ^ 4)
      (6 * T) (12 * T ^ 2) (20 * T ^ 3) = 2 * T ^ 9 := by
  simp only [det3]; ring

theorem evaluatePolynomial_six (c0 c1 c2 c3 c4 c5 t : ℚ) :
    evaluatePolynomial [c0, c1, c2, c3, c4, c5] t =
      c0 + c1 * t + c2 * t ^ 2 + c3 * t ^ 3 + c4 * t ^ 4 + c5 * t ^ 5 := by
  simp only [evaluatePolynomial, List.foldr]; ring

/-- C6: for `T > 0` the full-boundary `generateJerkMinTrajectory` returns six coefficients
`c0 .. c5` with `c0 = p0`, `c1 = v0`, `c2 = a0 / 2`, and the quintic
`p = c0 + c1 t + ... + c5 t ^ 5`, which is what `evaluatePolynomial` computes, satisfies
`p(0) = p0`, `p'(0) = v0`, `p''(0) = a0`, `p(T) = pf`, `p'(T) = vf`, `p''(T) = af`. -/
theorem jerkMin_meets_boundary_conditions (p0 v0 a0 pf vf af T : ℚ) (hT : 0 < T) :
    ∃ c0 c1 c2 c3 c4 c5 : ℚ, ∃ p : Polynomial ℚ,
      generateJerkMinTrajectory p0 v0 a0 pf vf af T = [c0, c1, c2, c3, c4, c5] ∧
      c0 = p0 ∧ c1 = v0 ∧ c2 = a0 / 2 ∧
      p = Polynomial.C c0 + Polynomial.C c1 * Polynomial.X + Polynomial.C c2 * Polynomial.X ^ 2
        + Polynomial.C c3 * Polynomial.X ^ 3 + Polynomial.C c4 * Polynomial.X ^ 4
        + Polynomial.C c5 * Polynomial.X ^ 5 ∧
      (∀ t, evaluatePolynomial (generateJerkMinTrajectory p0 v0 a0 pf vf af T) t = p.eval t) ∧
      (∀ t, evaluatePolynomial (derivative (generateJerkMinTrajectory p0 v0 a0 pf vf af T)) t
        = (Polynomial.derivative p).eval t) ∧
      (∀ t, evaluatePolynomial
          (derivative (derivative (generateJerkMinTrajectory p0 v0 a0 pf vf af T))) t
        = (Polynomial.derivative (Polynomial.derivative p)).eval t) ∧
      p.eval 0 = p0 ∧ (Polynomial.derivative p).eval 0 = v0 ∧
      (Polynomial.derivative (Polynomial.derivative p)).eval 0 = a0 ∧
      p.eval T = pf ∧ (Polynomial.derivative p).eval T = vf ∧
      (Polynomial.derivative (Polynomial.derivative p)).eval T = af := by
  have hdet : det3 (T ^ 3) (T ^ 4) (T ^ 5) (3 * T ^ 2) (4 * T ^ 3) (5 * T ^ 4)
      (6 * T) (12 * T ^ 2) (20 * T ^ 3) ≠ 0 := by
    rw [det3_jerkMin]
    exact mul_ne_zero two_ne_zero (pow_ne_zero _ (ne_of_gt hT))
  obtain ⟨h1, h2, h3⟩ := solve3_spec (T ^ 3) (T ^ 4) (T ^ 5) (3 * T ^ 2) (4 * T ^ 3) (5 * T ^ 4)
      (6 * T) (12 * T ^ 2) (20 * T ^ 3)
      (pf - (p0 + v0 * T + a0 / 2 * T ^ 2)) (vf - (v0 + 2 * (a0 / 2) * T)) (af - 2 * (a0 / 2))
      hdet
  refine ⟨_, _, _, _, _, _, _, rfl, rfl, rfl, rfl, rfl, ?_, ?_, ?_, ?_, ?_, ?_, ?_, ?_, ?_⟩
  · intro t
    simp only [generateJerkMinTrajectory, evaluatePolynomial_six, Polynomial.eval_add,
      Polynomial.eval_mul, Polynomial.eval_C, Polynomial.eval_X, Polynomial.eval_pow]
  · intro t
    simp [generateJerkMinTrajectory, derivative, evaluatePolynomial, List.enum, List.enumFrom]
    ring
  · intro t
    simp [generateJerkMinTrajectory, derivative, evaluatePolynomial, List.enum, List.enumFrom]
    ring
  · simp
  · simp
  · simp
  · simp only [Polynomial.eval_add, Polynomial.eval_mul, Polynomial.eval_C, Polynomial.eval_X,
      Polynomial.eval_pow]
    linear_combination h1
  · simp
    linear_combination h2
  · simp
    linear_combination h3

theorem jerkMin_meets_boundary_conditions_witness :
    (0 : ℚ) < 2 ∧
    evaluatePolynomial (generateJerkMinTrajectory 0 0 0 10 0 0 2) 0 = 0 ∧
    evaluatePolynomial (derivative (generateJerkMinTrajectory 0 0 0 10 0 0 2)) 0 = 0 ∧
    evaluatePolynomial (generateJerkMinTrajectory 0 0 0 10 0 0 2) 2 = 10 ∧
    evaluatePolynomial (derivative (generateJerkMinTrajectory 0 0 0 10 0 0 2)) 2 = 0 ∧
    evaluatePolynomial (derivative (derivative (generateJerkMinTrajectory 0 0 0 10 0 0 2))) 2
      = 0 := by
  obtain ⟨c0, c1, c2, c3, c4, c5, p, -, -, -, -, -, he, hd, hdd, h0, hv0, -, hT, hvT, haT⟩ :=
    jerkMin_meets_boundary_conditions 0 0 0 10 0 0 2 (by norm_num)
  exact ⟨by norm_num, by rw [he, h0], by rw [hd, hv0], by rw [he, hT], by rw [hd, hvT],
    by rw [hdd, haT]⟩

/-- C7: for `1 ≤ i < size`, `estimateVelocity` returns the wrap-aware distance from the
previous point to the current one divided by the time step. -/
theorem estimateVelocity_eq (map : Map) (history : List ℚ) (i : ℕ) (dt : ℚ)
    (h1 : 1 ≤ i) (h2 : i < history.length) :
    estimateVelocity map history i dt =
      map.s_min_diff (history[i]) (history[i - 1]) / dt := by
  unfold estimateVelocity
  rw [dif_neg (by omega)]

theorem estimateVelocity_eq_witness :
    1 ≤ 2 ∧ 2 < [(10 : ℚ), 11, 13].length ∧
    estimateVelocity (sampleMap 4 6945) [10, 11, 13] 2 (1 / 50) = 100 := by
  refine ⟨by decide, by decide, ?_⟩
  rw [estimateVelocity_eq (sampleMap 4 6945) [10, 11, 13] 2 (1 / 50) (by decide) (by decide)]
  simp only [sampleMap]
  norm_num

/-- Inside the guard of line 155 `estimateVelocity` is the finite difference of two elements
of the trajectory. -/
theorem estimateVelocity_finite_difference (map : Map) (trajectory : List ℚ) (index : ℕ)
    (dt : ℚ) (h1 : 1 ≤ index) (h2 : index < trajectory.length) :
    estimateVelocity map trajectory index dt =
      map.s_min_diff (trajectory[index]) (trajectory[index - 1]) / dt := by
  have hguard : ¬ (index < 1 ∨ index ≥ trajectory.length) := by omega
  simp only [estimateVelocity, dif_neg hguard]

/-- C8: for `2 ≤ i < size`, `estimateAcceleration` is the difference of the velocity
estimates at `i` and `i - 1` divided by the time step, and both estimates are finite
differences: the result is
`(s_min_diff(h[i], h[i-1]) / dt - s_min_diff(h[i-1], h[i-2]) / dt) / dt`. -/
theorem estimateAcceleration_eq (map : Map) (history : List ℚ) (i : ℕ) (dt : ℚ)
    (h1 : 2 ≤ i) (h2 : i < history.length) :
    estimateAcceleration map history i dt =
      (estimateVelocity map history i dt - estimateVelocity map history (i - 1) dt) / dt ∧
    estimateVelocity map history i dt = map.s_min_diff (history[i]) (history[i - 1]) / dt ∧
    estimateVelocity map history (i - 1) dt =
      map.s_min_diff (history[i - 1]) (history[i - 2]) / dt ∧
    estimateAcceleration map history i dt =
      (map.s_min_diff (history[i]) (history[i - 1]) / dt -
        map.s_min_diff (history[i - 1]) (history[i - 2]) / dt) / dt := by
  have ha : estimateAcceleration map history i dt =
      (estimateVelocity map history i dt - estimateVelocity map history (i - 1) dt) / dt := by
    unfold estimateAcceleration
    rw [if_neg (by omega)]
  have hv1 := estimateVelocity_finite_difference map history i dt (by omega) h2
  have hv2 : estimateVelocity map history (i - 1) dt =
      map.s_min_diff (history[i - 1]) (history[i - 2]) / dt := by
    rw [estimateVelocity_finite_difference map history (i - 1) dt (by omega) (by omega)]
    rfl
  exact ⟨ha, hv1, hv2, by rw [ha, hv1, hv2]⟩

theorem estimateAcceleration_eq_witness :
    2 ≤ 2 ∧ 2 < [(10 : ℚ), 11, 13].length ∧
    estimateAcceleration (sampleMap 4 6945) [10, 11, 13] 2 (1 / 50) = 2500 := by
  refine ⟨by decide, by decide, ?_⟩
  rw [(estimateAcceleration_eq (sampleMap 4 6945) [10, 11, 13] 2 (1 / 50) (by decide)
    (by decide)).2.2.2]
  simp only [sampleMap]
  norm_num

/-- C9: `estimateVelocity` returns `0` when `index = 0` or `index ≥ size`, and
`estimateAcceleration` returns `0` when `index < 2` or `index ≥ size`, for every history, the
empty one included; the branch taken reads no element of the history. -/
theorem estimators_zero_on_violated_precondition (map : Map) (history : List ℚ) (index : ℕ)
    (dt : ℚ) :
    (index = 0 ∨ index ≥ history.length → estimateVelocity map history index dt = 0) ∧
    (index < 2 ∨ index ≥ history.length → estimateAcceleration map history index dt = 0) ∧
    (∀ i, estimateVelocity map [] i dt = 0) ∧ (∀ i, estimateAcceleration map [] i dt = 0) := by
  refine ⟨?_, ?_, ?_, ?_⟩
  · intro h
    unfold estimateVelocity
    rw [dif_pos (by omega)]
  · intro h
    unfold estimateAcceleration
    rw [if_pos h]
  · intro i
    unfold estimateVelocity
    rw [dif_pos (show i < 1 ∨ i ≥ ([] : List ℚ).length from Or.inr (Nat.zero_le _))]
  · intro i
    unfold estimateAcceleration
    rw [if_pos (show i < 2 ∨ i ≥ ([] : List ℚ).length from Or.inr (Nat.zero_le _))]

theorem estimators_zero_on_violated_precondition_witness :
    estimateVelocity (sampleMap 4 6945) [10, 11, 13] 0 (1 / 50) = 0 ∧
    estimateVelocity (sampleMap 4 6945) [10, 11, 13] 3 (1 / 50) = 0 ∧
    estimateAcceleration (sampleMap 4 6945) [10, 11, 13] 1 (1 / 50) = 0 ∧
    estimateAcceleration (sampleMap 4 6945) [10, 11, 13] 3 (1 / 50) = 0 :=
  ⟨(estimators_zero_on_violated_precondition (sampleMap 4 6945) [10, 11, 13] 0 (1 / 50)).1
      (Or.inl rfl),
   (estimators_zero_on_violated_precondition (sampleMap 4 6945) [10, 11, 13] 3 (1 / 50)).1
      (Or.inr (by decide)),
   (estimators_zero_on_violated_precondition (sampleMap 4 6945) [10, 11, 13] 1 (1 / 50)).2.1
      (Or.inl (by decide)),
   (estimators_zero_on_violated_precondition (sampleMap 4 6945) [10, 11, 13] 3 (1 / 50)).2.1
      (Or.inr (by decide))⟩

theorem retainStep_length (cfg : Constants) (gen : TrajectoryGenerator) (previous_x : List ℚ) :
    (retainStep cfg gen previous_x).previous_s_.length = nPointsKeep cfg previous_x ∧
    (retainStep cfg gen previous_x).previous_d_.length = nPointsKeep cfg previous_x := by
  simp only [retainStep, length_resize, and_self]

theorem chooseTarget_history (cfg : Constants) (map : Map) (lib : Library)
    (gen : TrajectoryGenerator) (next_action : CarBehavior)
    (ego_vehicle_frenet : EgoVehicleFrenet) (sensor_fusion : SensorFusionData) :
    (chooseTarget cfg map lib gen next_action ego_vehicle_frenet sensor_fusion).2.previous_s_
      = gen.previous_s_ ∧
    (chooseTarget cfg map lib gen next_action ego_vehicle_frenet sensor_fusion).2.previous_d_
      = gen.previous_d_ := by
  cases next_action <;> simp [chooseTarget]

theorem targetOfCall_history (cfg : Constants) (map : Map) (lib : Library)
    (gen : TrajectoryGenerator) (next_action : CarBehavior) (ego_vehicle_data : EgoVehicleData)
    (sensor_fusion : SensorFusionData) (previous_x : List ℚ) :
    (targetOfCall cfg map lib gen next_action ego_vehicle_data sensor_fusion
      previous_x).2.previous_s_ = (retainStep cfg gen previous_x).previous_s_ ∧
    (targetOfCall cfg map lib gen next_action ego_vehicle_data sensor_fusion
      previous_x).2.previous_d_ = (retainStep cfg gen previous_x).previous_d_ := by
  simp only [targetOfCall, resolveTarget]
  exact chooseTarget_history _ _ _ _ _ _ _

/-- The history after a call: the retained points followed by the sampled ones. -/
theorem generateTrajectory_history (cfg : Constants) (map : Map) (lib : Library)
    (gen : TrajectoryGenerator) (next_action : CarBehavior) (ego_vehicle_data : EgoVehicleData)
    (sensor_fusion : SensorFusionData) (previous_x previous_y : List ℚ) :
    ∃ coeffs_s coeffs_d : List ℚ,
      (generateTrajectory cfg map lib gen next_action ego_vehicle_data sensor_fusion
        previous_x previous_y).gen.previous_s_ =
        (retainStep cfg gen previous_x).previous_s_ ++
          (List.range (subSizeT cfg.kNrTrajectoryPoints (nPointsKeep cfg previous_x))).map
            (sampleS cfg coeffs_s) ∧
      (generateTrajectory cfg map lib gen next_action ego_vehicle_data sensor_fusion
        previous_x previous_y).gen.previous_d_ =
        (retainStep cfg gen previous_x).previous_d_ ++
          (List.range (subSizeT cfg.kNrTrajectoryPoints (nPointsKeep cfg previous_x))).map
            (sampleD cfg coeffs_d) := by
  unfold generateTrajectory
  obtain ⟨cs, cd, h⟩ := followLane_eq cfg map lib
    (targetOfCall cfg map lib gen next_action ego_vehicle_data sensor_fusion previous_x).2
    (startState cfg map lib (retainStep cfg gen previous_x) ego_vehicle_data previous_x)
    (targetOfCall cfg map lib gen next_action ego_vehicle_data sensor_fusion previous_x).1
    (subSizeT cfg.kNrTrajectoryPoints (nPointsKeep cfg previous_x))
    (copyPrevious lib previous_x (nPointsKeep cfg previous_x))
    (copyPrevious lib previous_y (nPointsKeep cfg previous_x))
  refine ⟨cs, cd, ?_⟩
  simp only [h]
  rw [(targetOfCall_history _ _ _ _ _ _ _ _).1, (targetOfCall_history _ _ _ _ _ _ _ _).2]
  exact ⟨rfl, rfl⟩

theorem generateTrajectory_history_length (cfg : Constants) (map : Map) (lib : Library)
    (gen : TrajectoryGenerator) (next_action : CarBehavior) (ego_vehicle_data : EgoVehicleData)
    (sensor_fusion : SensorFusionData) (previous_x previous_y : List ℚ) :
    (generateTrajectory cfg map lib gen next_action ego_vehicle_data sensor_fusion
      previous_x previous_y).gen.previous_s_.length =
      nPointsKeep cfg previous_x +
        subSizeT cfg.kNrTrajectoryPoints (nPointsKeep cfg previous_x) ∧
    (generateTrajectory cfg map lib gen next_action ego_vehicle_data sensor_fusion
      previous_x previous_y).gen.previous_d_.length =
      nPointsKeep cfg previous_x +
        subSizeT cfg.kNrTrajectoryPoints (nPointsKeep cfg previous_x) := by
  obtain ⟨cs, cd, hs, hd⟩ := generateTrajectory_history cfg map lib gen next_action
    ego_vehicle_data sensor_fusion previous_x previous_y
  rw [hs, hd]
  simp only [List.length_append, List.length_map, List.length_range,
    (retainStep_length cfg gen previous_x).1, (retainStep_length cfg gen previous_x).2,
    and_self]

/-- The trim loop with `n` iterations drops the oldest `min n (min |s| |d|)` points of both
sequences. -/
theorem trimLoop_eq (n : ℕ) (s d : List ℚ) :
    trimLoop n s d =
      (s.drop (min n (min s.length d.length)), d.drop (min n (min s.length d.length))) := by
  induction n generalizing s d with
  | zero => simp [trimLoop]
  | succ n ih =>
    cases s with
    | nil => simp [trimLoop]
    | cons a s =>
      cases d with
      | nil => simp [trimLoop]
      | cons b d =>
        simp only [trimLoop, List.isEmpty_cons, Bool.not_false, Bool.and_self, if_true,
          List.tail_cons, ih, List.length_cons]
        have h : min (n + 1) (min (s.length + 1) (d.length + 1)) =
            min n (min s.length d.length) + 1 := by omega
        rw [h, List.drop_succ_cons, List.drop_succ_cons]

theorem trimLoop_length_eq (n : ℕ) (s d : List ℚ) (h : s.length = d.length) :
    (trimLoop n s d).1.length = (trimLoop n s d).2.length := by
  rw [trimLoop_eq]
  simp only [List.length_drop, h]

theorem sampleStep_length_eq (cfg : Constants) (map : Map) (coeffs_s coeffs_d : List ℚ)
    (st : Sampling) (i : ℕ) (h : st.gen.previous_s_.length = st.gen.previous_d_.length) :
    (sampleStep cfg map coeffs_s coeffs_d st i).gen.previous_s_.length =
      (sampleStep cfg map coeffs_s coeffs_d st i).gen.previous_d_.length := by
  simp only [sampleStep, List.length_append, List.length_singleton, h]

/-- C11: `previous_s_` and `previous_d_` have equal length in the freshly constructed
generator; the trim loop (after any number of iterations) and each append of the sampling loop
keep the lengths equal, the two `resize` calls make them equal, and after every
`generateTrajectory` call, on any inputs and from any generator, the lengths are equal. -/
theorem history_sequences_equal_length (cfg : Constants) (map : Map) (lib : Library)
    (gen : TrajectoryGenerator) (next_action : CarBehavior) (ego_vehicle_data : EgoVehicleData)
    (sensor_fusion : SensorFusionData) (previous_x previous_y : List ℚ) :
    TrajectoryGenerator.init.previous_s_.length = TrajectoryGenerator.init.previous_d_.length ∧
    (∀ (n : ℕ) (s d : List ℚ), s.length = d.length →
      (trimLoop n s d).1.length = (trimLoop n s d).2.length) ∧
    (retainStep cfg gen previous_x).previous_s_.length =
      (retainStep cfg gen previous_x).previous_d_.length ∧
    (∀ (coeffs_s coeffs_d : List ℚ) (st : Sampling) (i : ℕ),
      st.gen.previous_s_.length = st.gen.previous_d_.length →
      (sampleStep cfg map coeffs_s coeffs_d st i).gen.previous_s_.length =
        (sampleStep cfg map coeffs_s coeffs_d st i).gen.previous_d_.length) ∧
    (generateTrajectory cfg map lib gen next_action ego_vehicle_data sensor_fusion
      previous_x previous_y).gen.previous_s_.length =
    (generateTrajectory cfg map lib gen next_action ego_vehicle_data sensor_fusion
      previous_x previous_y).gen.previous_d_.length := by
  refine ⟨rfl, trimLoop_length_eq, ?_, sampleStep_length_eq cfg map, ?_⟩
  · rw [(retainStep_length cfg gen previous_x).1, (retainStep_length cfg gen previous_x).2]
  · rw [(generateTrajectory_history_length cfg map lib gen next_action ego_vehicle_data
      sensor_fusion previous_x previous_y).1,
      (generateTrajectory_history_length cfg map lib gen next_action ego_vehicle_data
      sensor_fusion previous_x previous_y).2]

theorem history_sequences_equal_length_witness :
    ([1, 2, 3] : List ℚ).length = ([4, 5, 6] : List ℚ).length ∧
    (trimLoop 2 [1, 2, 3] [4, 5, 6]).1.length = (trimLoop 2 [1, 2, 3] [4, 5, 6]).2.length :=
  ⟨rfl, (history_sequences_equal_length sampleConstants (sampleMap 4 6945) sampleLibrary
    TrajectoryGenerator.init CarBehavior.GO_STRAIGHT { s := 100, d := 6 } { vehicles := [] }
    [] []).2.1 2 [1, 2, 3] [4, 5, 6] rfl⟩

theorem resize_of_le (xs : List ℚ) (n : ℕ) (h : n ≤ xs.length) : resize xs n = xs.take n := by
  unfold resize
  rw [Nat.sub_eq_zero_of_le h]
  simp

theorem take_resize (xs : List ℚ) (n : ℕ) :
    (resize xs n).take (min xs.length n) = xs.take (min xs.length n) := by
  unfold resize
  rw [List.take_append_of_le_length (by rw [List.length_take]; omega), List.take_take]
  congr 1
  omega

/-- The history after the retain step, in terms of the history before the call. -/
theorem retainStep_eq (cfg : Constants) (gen : TrajectoryGenerator) (previous_x : List ℚ) :
    (retainStep cfg gen previous_x).previous_s_ =
      resize (trimLoop (subSizeT cfg.kNrTrajectoryPoints previous_x.length)
        gen.previous_s_ gen.previous_d_).1 (nPointsKeep cfg previous_x) ∧
    (retainStep cfg gen previous_x).previous_d_ =
      resize (trimLoop (subSizeT cfg.kNrTrajectoryPoints previous_x.length)
        gen.previous_s_ gen.previous_d_).2 (nPointsKeep cfg previous_x) :=
  ⟨rfl, rfl⟩

/-- C12, as stated, fails: with four trajectory points and two retained points, a history
`[1, 2, 3, 4]` and a pending path of three points, the trim loop leaves `[2, 3, 4]` and the
retain step leaves `[2, 3]`, the two oldest points, not the two most recent ones `[3, 4]`. -/
theorem retain_keeps_oldest_not_most_recent :
    (trimLoop (subSizeT smallConstants.kNrTrajectoryPoints ([7, 8, 9] : List ℚ).length)
      [1, 2, 3, 4] [5, 6, 7, 8]).1 = [2, 3, 4] ∧
    nPointsKeep smallConstants [7, 8, 9] = 2 ∧
    (retainStep smallConstants
      { previous_s_ := [1, 2, 3, 4], previous_d_ := [5, 6, 7, 8],
        target_d_for_lane_change_ := 0 } [7, 8, 9]).previous_s_ = [2, 3] ∧
    ([2, 3, 4] : List ℚ).drop (([2, 3, 4] : List ℚ).length - min ([2, 3, 4] : List ℚ).length 2)
      = [3, 4] ∧
    (retainStep smallConstants
      { previous_s_ := [1, 2, 3, 4], previous_d_ := [5, 6, 7, 8],
        target_d_for_lane_change_ := 0 } [7, 8, 9]).previous_s_ ≠
      ([2, 3, 4] : List ℚ).drop
        (([2, 3, 4] : List ℚ).length - min ([2, 3, 4] : List ℚ).length 2) := by
  have hn : subSizeT smallConstants.kNrTrajectoryPoints ([7, 8, 9] : List ℚ).length = 1 := by
    decide
  have hk : nPointsKeep smallConstants [7, 8, 9] = 2 := by decide
  have ht : (trimLoop 1 [1, 2, 3, 4] [5, 6, 7, 8]).1 = ([2, 3, 4] : List ℚ) := by
    simp [trimLoop]
  have hr : (retainStep smallConstants
      { previous_s_ := [1, 2, 3, 4], previous_d_ := [5, 6, 7, 8],
        target_d_for_lane_change_ := 0 } [7, 8, 9]).previous_s_ = [2, 3] := by
    rw [(retainStep_eq _ _ _).1, hn, hk, ht]
    simp [resize]
  have hd : ([2, 3, 4] : List ℚ).drop
      (([2, 3, 4] : List ℚ).length - min ([2, 3, 4] : List ℚ).length 2) = [3, 4] := by
    simp
  refine ⟨by rw [hn]; exact ht, hk, hr, hd, ?_⟩
  rw [hr, hd]
  intro h
  norm_num at h

/-- C12 (amended): the retain step keeps the oldest points first. With `t` the trimmed
history and `n = n_points_keep`, the first `min |t| n` entries of the result are the first
`min |t| n` points of `t` in their original order, and when `t` has at least `n` points the
result is exactly the first `n` points of `t`. -/
theorem retain_keeps_oldest_points (cfg : Constants) (gen : TrajectoryGenerator)
    (previous_x : List ℚ) :
    ((retainStep cfg gen previous_x).previous_s_.take
        (min (trimLoop (subSizeT cfg.kNrTrajectoryPoints previous_x.length)
          gen.previous_s_ gen.previous_d_).1.length (nPointsKeep cfg previous_x)) =
      (trimLoop (subSizeT cfg.kNrTrajectoryPoints previous_x.length)
          gen.previous_s_ gen.previous_d_).1.take
        (min (trimLoop (subSizeT cfg.kNrTrajectoryPoints previous_x.length)
          gen.previous_s_ gen.previous_d_).1.length (nPointsKeep cfg previous_x))) ∧
    ((retainStep cfg gen previous_x).previous_d_.take
        (min (trimLoop (subSizeT cfg.kNrTrajectoryPoints previous_x.length)
          gen.previous_s_ gen.previous_d_).2.length (nPointsKeep cfg previous_x)) =
      (trimLoop (subSizeT cfg.kNrTrajectoryPoints previous_x.length)
          gen.previous_s_ gen.previous_d_).2.take
        (min (trimLoop (subSizeT cfg.kNrTrajectoryPoints previous_x.length)
          gen.previous_s_ gen.previous_d_).2.length (nPointsKeep cfg previous_x))) ∧
    (nPointsKeep cfg previous_x ≤
        (trimLoop (subSizeT cfg.kNrTrajectoryPoints previous_x.length)
          gen.previous_s_ gen.previous_d_).1.length →
      (retainStep cfg gen previous_x).previous_s_ =
        (trimLoop (subSizeT cfg.kNrTrajectoryPoints previous_x.length)
          gen.previous_s_ gen.previous_d_).1.take (nPointsKeep cfg previous_x)) ∧
    (nPointsKeep cfg previous_x ≤
        (trimLoop (subSizeT cfg.kNrTrajectoryPoints previous_x.length)
          gen.previous_s_ gen.previous_d_).2.length →
      (retainStep cfg gen previous_x).previous_d_ =
        (trimLoop (subSizeT cfg.kNrTrajectoryPoints previous_x.length)
          gen.previous_s_ gen.previous_d_).2.take (nPointsKeep cfg previous_x)) := by
  rw [(retainStep_eq cfg gen previous_x).1, (retainStep_eq cfg gen previous_x).2]
  exact ⟨take_resize _ _, take_resize _ _, resize_of_le _ _, resize_of_le _ _⟩

theorem retain_keeps_oldest_points_witness :
    nPointsKeep smallConstants [7, 8, 9] ≤
      (trimLoop (subSizeT smallConstants.kNrTrajectoryPoints ([7, 8, 9] : List ℚ).length)
        [1, 2, 3, 4] [5, 6, 7, 8]).1.length ∧
    (retainStep smallConstants
      { previous_s_ := [1, 2, 3, 4], previous_d_ := [5, 6, 7, 8],
        target_d_for_lane_change_ := 0 } [7, 8, 9]).previous_s_ =
      (trimLoop (subSizeT smallConstants.kNrTrajectoryPoints ([7, 8, 9] : List ℚ).length)
        [1, 2, 3, 4] [5, 6, 7, 8]).1.take (nPointsKeep smallConstants [7, 8, 9]) := by
  have hle : nPointsKeep smallConstants [7, 8, 9] ≤
      (trimLoop (subSizeT smallConstants.kNrTrajectoryPoints ([7, 8, 9] : List ℚ).length)
        [1, 2, 3, 4] [5, 6, 7, 8]).1.length := by
    rw [trimLoop_eq]
    decide
  exact ⟨hle, (retain_keeps_oldest_points smallConstants
    { previous_s_ := [1, 2, 3, 4], previous_d_ := [5, 6, 7, 8],
      target_d_for_lane_change_ := 0 } [7, 8, 9]).2.2.1 hle⟩

/-- C13: for a pending path of `m ≤ kNrTrajectoryPoints` points, the trim loop removes the
oldest `min (kNrTrajectoryPoints - m) |h|` points of both sequences and leaves the remaining
points as they are and in order (for sequences of lengths `|s|` and `|d|` the count is
`min (kNrTrajectoryPoints - m) (min |s| |d|)`); on an empty sequence the loop stops without a
pop. -/
theorem trim_removes_consumed_points (cfg : Constants) (s d : List ℚ) (previous_x : List ℚ)
    (hsize : cfg.kNrTrajectoryPoints < kSizeMod)
    (hm : previous_x.length ≤ cfg.kNrTrajectoryPoints) :
    trimLoop (subSizeT cfg.kNrTrajectoryPoints previous_x.length) s d =
      (s.drop (min (cfg.kNrTrajectoryPoints - previous_x.length) (min s.length d.length)),
       d.drop (min (cfg.kNrTrajectoryPoints - previous_x.length) (min s.length d.length))) ∧
    (s.length = d.length →
      trimLoop (subSizeT cfg.kNrTrajectoryPoints previous_x.length) s d =
        (s.drop (min (cfg.kNrTrajectoryPoints - previous_x.length) s.length),
         d.drop (min (cfg.kNrTrajectoryPoints - previous_x.length) d.length))) ∧
    (∀ n : ℕ, trimLoop n [] d = ([], d)) ∧ (∀ n : ℕ, trimLoop n s [] = (s, [])) := by
  rw [subSizeT_eq _ _ hsize hm]
  refine ⟨trimLoop_eq _ _ _, ?_, ?_, ?_⟩
  · intro h
    rw [trimLoop_eq, h, min_self]
  · intro n
    cases n <;> simp [trimLoop]
  · intro n
    cases n <;> simp [trimLoop]

theorem trim_removes_consumed_points_witness :
    smallConstants.kNrTrajectoryPoints < kSizeMod ∧
    ([7, 8, 9] : List ℚ).length ≤ smallConstants.kNrTrajectoryPoints ∧
    trimLoop (subSizeT smallConstants.kNrTrajectoryPoints ([7, 8, 9] : List ℚ).length)
      [1, 2, 3, 4] [5, 6, 7, 8] = ([2, 3, 4], [6, 7, 8]) := by
  refine ⟨by decide, by decide, ?_⟩
  rw [(trim_removes_consumed_points smallConstants [1, 2, 3, 4] [5, 6, 7, 8] [7, 8, 9]
    (by decide) (by decide)).1]
  simp [smallConstants]

theorem copyPrevious_eq_take (lib : Library) (previous : List ℚ) (n : ℕ)
    (h : n ≤ previous.length) : copyPrevious lib previous n = previous.take n := by
  rw [copyPrevious_eq]
  apply List.ext_getElem
  · simp [h]
  · intro i h1 h2
    have hi : i < n := by simpa using h1
    simp only [List.getElem_map, List.getElem_range, List.getElem_take, vectorAt]
    rw [List.getD_eq_getElem?_getD, List.getElem?_eq_getElem (by omega)]
    rfl

/-- The outputs of a call start with the copied entries of the previous path. -/
theorem generateTrajectory_out_x_take (cfg : Constants) (map : Map) (lib : Library)
    (gen : TrajectoryGenerator) (next_action : CarBehavior) (ego_vehicle_data : EgoVehicleData)
    (sensor_fusion : SensorFusionData) (previous_x previous_y : List ℚ) :
    (generateTrajectory cfg map lib gen next_action ego_vehicle_data sensor_fusion
      previous_x previous_y).out_x.take (nPointsKeep cfg previous_x) =
      previous_x.take (nPointsKeep cfg previous_x) := by
  unfold generateTrajectory
  obtain ⟨cs, cd, h⟩ := followLane_eq cfg map lib
    (targetOfCall cfg map lib gen next_action ego_vehicle_data sensor_fusion previous_x).2
    (startState cfg map lib (retainStep cfg gen previous_x) ego_vehicle_data previous_x)
    (targetOfCall cfg map lib gen next_action ego_vehicle_data sensor_fusion previous_x).1
    (subSizeT cfg.kNrTrajectoryPoints (nPointsKeep cfg previous_x))
    (copyPrevious lib previous_x (nPointsKeep cfg previous_x))
    (copyPrevious lib previous_y (nPointsKeep cfg previous_x))
  have hlen : nPointsKeep cfg previous_x ≤
      (previous_x.take (nPointsKeep cfg previous_x)).length := by
    rw [List.length_take]
    exact le_min le_rfl (nPointsKeep_le cfg previous_x)
  rw [h]
  simp only
  rw [copyPrevious_eq_take lib previous_x _ (nPointsKeep_le cfg previous_x),
    List.take_append_of_le_length hlen, List.take_take, min_self]

/-- C16: when both history sequences hold exactly `kNrTrajectoryPoints` points before a call
and the pending path has `m ≤ kNrTrajectoryPoints` points, the history after the trim and
retain steps is the slice `h[c .. c + k)` of the history `h` before the call, with
`c = kNrTrajectoryPoints - m` and `k = min m kNrPreviousPathPoints`: it has `k` entries and
its entry `i` is `h[c + i]`, so no entry comes from the padding of `resize`; the first `k`
entries of `out_x` are the entries `previous_x[0 .. k)` re-emitted by the call. -/
theorem retained_history_is_slice (cfg : Constants) (map : Map) (lib : Library)
    (gen : TrajectoryGenerator) (next_action : CarBehavior) (ego_vehicle_data : EgoVehicleData)
    (sensor_fusion : SensorFusionData) (previous_x previous_y : List ℚ)
    (hsize : cfg.kNrTrajectoryPoints < kSizeMod)
    (hs : gen.previous_s_.length = cfg.kNrTrajectoryPoints)
    (hd : gen.previous_d_.length = cfg.kNrTrajectoryPoints)
    (hm : previous_x.length ≤ cfg.kNrTrajectoryPoints) :
    (retainStep cfg gen previous_x).previous_s_ =
      (gen.previous_s_.drop (cfg.kNrTrajectoryPoints - previous_x.length)).take
        (min previous_x.length cfg.kNrPreviousPathPoints) ∧
    (retainStep cfg gen previous_x).previous_d_ =
      (gen.previous_d_.drop (cfg.kNrTrajectoryPoints - previous_x.length)).take
        (min previous_x.length cfg.kNrPreviousPathPoints) ∧
    (retainStep cfg gen previous_x).previous_s_.length =
      min previous_x.length cfg.kNrPreviousPathPoints ∧
    (∀ i, i < min previous_x.length cfg.kNrPreviousPathPoints →
      (retainStep cfg gen previous_x).previous_s_[i]? =
        gen.previous_s_[cfg.kNrTrajectoryPoints - previous_x.length + i]? ∧
      (retainStep cfg gen previous_x).previous_d_[i]? =
        gen.previous_d_[cfg.kNrTrajectoryPoints - previous_x.length + i]? ∧
      cfg.kNrTrajectoryPoints - previous_x.length + i < gen.previous_s_.length) ∧
    (generateTrajectory cfg map lib gen next_action ego_vehicle_data sensor_fusion
      previous_x previous_y).out_x.take (min previous_x.length cfg.kNrPreviousPathPoints) =
      previous_x.take (min previous_x.length cfg.kNrPreviousPathPoints) := by
  have hmin : min (cfg.kNrTrajectoryPoints - previous_x.length)
      (min gen.previous_s_.length gen.previous_d_.length) =
      cfg.kNrTrajectoryPoints - previous_x.length := by
    rw [hs, hd]; omega
  have hS : (retainStep cfg gen previous_x).previous_s_ =
      (gen.previous_s_.drop (cfg.kNrTrajectoryPoints - previous_x.length)).take
        (min previous_x.length cfg.kNrPreviousPathPoints) := by
    rw [(retainStep_eq cfg gen previous_x).1, subSizeT_eq _ _ hsize hm, trimLoop_eq, hmin]
    apply resize_of_le
    rw [List.length_drop, hs]
    unfold nPointsKeep
    omega
  have hD : (retainStep cfg gen previous_x).previous_d_ =
      (gen.previous_d_.drop (cfg.kNrTrajectoryPoints - previous_x.length)).take
        (min previous_x.length cfg.kNrPreviousPathPoints) := by
    rw [(retainStep_eq cfg gen previous_x).2, subSizeT_eq _ _ hsize hm, trimLoop_eq, hmin]
    apply resize_of_le
    rw [List.length_drop, hd]
    unfold nPointsKeep
    omega
  refine ⟨hS, hD, (retainStep_length cfg gen previous_x).1, ?_,
    generateTrajectory_out_x_take cfg map lib gen next_action ego_vehicle_data sensor_fusion
      previous_x previous_y⟩
  intro i hi
  rw [hS, hD]
  refine ⟨?_, ?_, by rw [hs]; omega⟩
  · rw [List.getElem?_take_of_lt hi, List.getElem?_drop]
  · rw [List.getElem?_take_of_lt hi, List.getElem?_drop]

theorem retained_history_is_slice_witness :
    smallConstants.kNrTrajectoryPoints < kSizeMod ∧
    ([7, 8, 9] : List ℚ).length ≤ smallConstants.kNrTrajectoryPoints ∧
    (retainStep smallConstants
      { previous_s_ := [1, 2, 3, 4], previous_d_ := [5, 6, 7, 8],
        target_d_for_lane_change_ := 0 } [7, 8, 9]).previous_d_ = [6, 7] := by
  refine ⟨by decide, by decide, ?_⟩
  rw [(retained_history_is_slice smallConstants (sampleMap 4 6945) sampleLibrary
    { previous_s_ := [1, 2, 3, 4], previous_d_ := [5, 6, 7, 8],
      target_d_for_lane_change_ := 0 } CarBehavior.GO_STRAIGHT { s := 100, d := 6 }
    { vehicles := [] } [7, 8, 9] [1, 2, 3] (by decide) rfl rfl (by decide)).2.1]
  simp [smallConstants]

theorem fmod_of_nonneg {α : Type} [LinearOrderedField α] [FloorRing α] (x y : α)
    (hy : 0 < y) (hx : 0 ≤ x) :
    fmod x y = x - y * ((⌊x / y⌋ : ℤ) : α) ∧ 0 ≤ fmod x y ∧ fmod x y < y := by
  have hq : 0 ≤ x / y := div_nonneg hx (le_of_lt hy)
  have he : fmod x y = x - y * ((⌊x / y⌋ : ℤ) : α) := by
    unfold fmod
    rw [if_pos hq]
  have h1 : ((⌊x / y⌋ : ℤ) : α) ≤ x / y := Int.floor_le _
  have h2 : x / y < ((⌊x / y⌋ : ℤ) : α) + 1 := Int.lt_floor_add_one _
  have h3 : y * (x / y) = x := mul_div_cancel₀ x (ne_of_gt hy)
  have h4 : y * ((⌊x / y⌋ : ℤ) : α) ≤ x := by
    calc y * ((⌊x / y⌋ : ℤ) : α) ≤ y * (x / y) := mul_le_mul_of_nonneg_left h1 (le_of_lt hy)
      _ = x := h3
  have h5 : x < y * (((⌊x / y⌋ : ℤ) : α) + 1) := by
    calc x = y * (x / y) := h3.symm
      _ < y * (((⌊x / y⌋ : ℤ) : α) + 1) := mul_lt_mul_of_pos_left h2 hy
  refine ⟨he, ?_, ?_⟩
  · rw [he]; linarith
  · rw [he]; linarith

theorem fmod_of_neg {α : Type} [LinearOrderedField α] [FloorRing α] (x y : α)
    (hy : 0 < y) (hx : x < 0) :
    fmod x y = x - y * ((⌈x / y⌉ : ℤ) : α) ∧ -y < fmod x y ∧ fmod x y ≤ 0 := by
  have hq : ¬ 0 ≤ x / y := not_le.mpr (div_neg_of_neg_of_pos hx hy)
  have he : fmod x y = x - y * ((⌈x / y⌉ : ℤ) : α) := by
    unfold fmod
    rw [if_neg hq]
  have h1 : x / y ≤ ((⌈x / y⌉ : ℤ) : α) := Int.le_ceil _
  have h2 : ((⌈x / y⌉ : ℤ) : α) < x / y + 1 := Int.ceil_lt_add_one _
  have h3 : y * (x / y) = x := mul_div_cancel₀ x (ne_of_gt hy)
  have h4 : x ≤ y * ((⌈x / y⌉ : ℤ) : α) := by
    calc x = y * (x / y) := h3.symm
      _ ≤ y * ((⌈x / y⌉ : ℤ) : α) := mul_le_mul_of_nonneg_left h1 (le_of_lt hy)
  have h5 : y * ((⌈x / y⌉ : ℤ) : α) < x + y := by
    calc y * ((⌈x / y⌉ : ℤ) : α) < y * (x / y + 1) := mul_lt_mul_of_pos_left h2 hy
      _ = x + y := by rw [mul_add, h3, mul_one]
  refine ⟨he, ?_, ?_⟩
  · rw [he]; linarith
  · rw [he]; linarith

/-- C14: when the track length `kMaxS` is positive and the raw longitudinal value `r` of the
sample of step `i` exceeds it, the `s` that the step appends to `previous_s_` and hands to
`frenetToXy` is `r - k * kMaxS` for the integer `k = floor (r / kMaxS)` and lies in
`[0, kMaxS)`. -/
theorem sampled_s_wraps (cfg : Constants) (map : Map) (coeffs_s coeffs_d : List ℚ)
    (st : Sampling) (i : ℕ)
    (hpos : 0 < cfg.kMaxS)
    (hr : cfg.kMaxS <
      evaluatePolynomial coeffs_s (((i + 1 : ℕ) : ℚ) * cfg.kSimulationTimeStep)) :
    ∃ s : ℚ,
      (sampleStep cfg map coeffs_s coeffs_d st i).gen.previous_s_ = st.gen.previous_s_ ++ [s] ∧
      (sampleStep cfg map coeffs_s coeffs_d st i).out_x = st.out_x ++
        [(map.frenetToXy s (evaluatePolynomial coeffs_d
          (((i + 1 : ℕ) : ℚ) * cfg.kSimulationTimeStep))).1] ∧
      (sampleStep cfg map coeffs_s coeffs_d st i).out_y = st.out_y ++
        [(map.frenetToXy s (evaluatePolynomial coeffs_d
          (((i + 1 : ℕ) : ℚ) * cfg.kSimulationTimeStep))).2] ∧
      s = fmod (evaluatePolynomial coeffs_s (((i + 1 : ℕ) : ℚ) * cfg.kSimulationTimeStep))
        cfg.kMaxS ∧
      s = evaluatePolynomial coeffs_s (((i + 1 : ℕ) : ℚ) * cfg.kSimulationTimeStep) -
        ((⌊evaluatePolynomial coeffs_s (((i + 1 : ℕ) : ℚ) * cfg.kSimulationTimeStep) /
          cfg.kMaxS⌋ : ℤ) : ℚ) * cfg.kMaxS ∧
      0 ≤ s ∧ s < cfg.kMaxS := by
  obtain ⟨he, h0, h1⟩ := fmod_of_nonneg
    (evaluatePolynomial coeffs_s (((i + 1 : ℕ) : ℚ) * cfg.kSimulationTimeStep)) cfg.kMaxS hpos
    (le_of_lt (lt_trans hpos hr))
  refine ⟨_, rfl, rfl, rfl, rfl, ?_, h0, h1⟩
  rw [he]; ring

theorem sampled_s_wraps_witness :
    (0 : ℚ) < smallConstants.kMaxS ∧
    smallConstants.kMaxS <
      evaluatePolynomial [7000, 50] (((0 + 1 : ℕ) : ℚ) * smallConstants.kSimulationTimeStep) ∧
    (sampleStep smallConstants (sampleMap 4 6945) [7000, 50] [6]
      { gen := TrajectoryGenerator.init, out_x := [], out_y := [] } 0).gen.previous_s_ =
      [55446 / 1000] := by
  have hpos : (0 : ℚ) < smallConstants.kMaxS := by
    norm_num [smallConstants, sampleConstants]
  have hr : smallConstants.kMaxS <
      evaluatePolynomial [7000, 50] (((0 + 1 : ℕ) : ℚ) * smallConstants.kSimulationTimeStep) := by
    norm_num [smallConstants, sampleConstants, evaluatePolynomial]
  refine ⟨hpos, hr, ?_⟩
  obtain ⟨s, hs, -, -, -, hval, -, -⟩ := sampled_s_wraps smallConstants (sampleMap 4 6945)
    [7000, 50] [6] { gen := TrajectoryGenerator.init, out_x := [], out_y := [] } 0 hpos hr
  rw [hs, hval]
  have hv : evaluatePolynomial [7000, 50]
      (((0 + 1 : ℕ) : ℚ) * smallConstants.kSimulationTimeStep) = 7001 := by
    norm_num [smallConstants, sampleConstants, evaluatePolynomial]
  have hf : ⌊(7001 : ℚ) / smallConstants.kMaxS⌋ = 1 := by
    rw [Int.floor_eq_iff]
    norm_num [smallConstants, sampleConstants]
  rw [hv, hf]
  norm_num [smallConstants, sampleConstants, TrajectoryGenerator.init]

theorem generateTrajectory_out_length (cfg : Constants) (map : Map) (lib : Library)
    (gen : TrajectoryGenerator) (next_action : CarBehavior) (ego_vehicle_data : EgoVehicleData)
    (sensor_fusion : SensorFusionData) (previous_x previous_y : List ℚ) :
    (generateTrajectory cfg map lib gen next_action ego_vehicle_data sensor_fusion
      previous_x previous_y).out_x.length =
      nPointsKeep cfg previous_x +
        subSizeT cfg.kNrTrajectoryPoints (nPointsKeep cfg previous_x) ∧
    (generateTrajectory cfg map lib gen next_action ego_vehicle_data sensor_fusion
      previous_x previous_y).out_y.length =
      nPointsKeep cfg previous_x +
        subSizeT cfg.kNrTrajectoryPoints (nPointsKeep cfg previous_x) := by
  unfold generateTrajectory
  obtain ⟨cs, cd, h⟩ := followLane_eq cfg map lib
    (targetOfCall cfg map lib gen next_action ego_vehicle_data sensor_fusion previous_x).2
    (startState cfg map lib (retainStep cfg gen previous_x) ego_vehicle_data previous_x)
    (targetOfCall cfg map lib gen next_action ego_vehicle_data sensor_fusion previous_x).1
    (subSizeT cfg.kNrTrajectoryPoints (nPointsKeep cfg previous_x))
    (copyPrevious lib previous_x (nPointsKeep cfg previous_x))
    (copyPrevious lib previous_y (nPointsKeep cfg previous_x))
  rw [h]
  simp only [List.length_append, List.length_map, List.length_range, length_copyPrevious,
    and_self]

/-- C15 fails on the code: for `GO_STRAIGHT` from an ego lateral offset `d = 13`, right of the
last lane, the lane index of the resolved target `d = 14` is 3, outside the three-entry table;
line 127 reads the table at that index without a check, the call completes with both outputs
of full length, and the target speed is whatever the read outside the table yields. -/
theorem lane_speed_lookup_unchecked (lib : Library) :
    (targetOfCall sampleConstants (sampleMap 4 6945) lib TrajectoryGenerator.init
      CarBehavior.GO_STRAIGHT { s := 100, d := 13 } { vehicles := [] } []).1.d = 14 ∧
    laneSpeedIndex (sampleMap 4 6945)
      (targetOfCall sampleConstants (sampleMap 4 6945) lib TrajectoryGenerator.init
        CarBehavior.GO_STRAIGHT { s := 100, d := 13 } { vehicles := [] } []).1 = 3 ∧
    ¬ laneInTable sampleConstants 3 ∧
    (targetOfCall sampleConstants (sampleMap 4 6945) lib TrajectoryGenerator.init
      CarBehavior.GO_STRAIGHT { s := 100, d := 13 } { vehicles := [] } []).1.s_dot =
      min kDoubleMax (lib.strayTable 3) ∧
    (generateTrajectory sampleConstants (sampleMap 4 6945) lib TrajectoryGenerator.init
      CarBehavior.GO_STRAIGHT { s := 100, d := 13 } { vehicles := [] } [] []).out_x.length
      = 50 ∧
    (generateTrajectory sampleConstants (sampleMap 4 6945) lib TrajectoryGenerator.init
      CarBehavior.GO_STRAIGHT { s := 100, d := 13 } { vehicles := [] } [] []).out_y.length
      = 50 := by
  have h13 : (sampleMap 4 6945).getLaneNumber (13 : ℚ) = 3 := by
    simp only [sampleMap]
    rw [Int.floor_eq_iff]; norm_num
  have h14 : (sampleMap 4 6945).getLaneNumber (14 : ℚ) = 3 := by
    simp only [sampleMap]
    rw [Int.floor_eq_iff]; norm_num
  have hstart : startState sampleConstants (sampleMap 4 6945) lib
      (retainStep sampleConstants TrajectoryGenerator.init [])
      { s := 100, d := 13 } [] = { s := 100, d := 13 } := by
    simp [startState]
  have hd : (targetOfCall sampleConstants (sampleMap 4 6945) lib TrajectoryGenerator.init
      CarBehavior.GO_STRAIGHT { s := 100, d := 13 } { vehicles := [] } []).1.d = 14 := by
    simp only [targetOfCall, hstart, resolveTarget, clampToLaneSpeed, chooseTarget, h13]
    norm_num [sampleConstants]
  have hnot : ¬ laneInTable sampleConstants 3 := by
    simp [laneInTable, sampleConstants]
  have hidx : laneSpeedIndex (sampleMap 4 6945)
      (targetOfCall sampleConstants (sampleMap 4 6945) lib TrajectoryGenerator.init
        CarBehavior.GO_STRAIGHT { s := 100, d := 13 } { vehicles := [] } []).1 = 3 := by
    unfold laneSpeedIndex
    rw [hd, h14]
  have hspeed : (targetOfCall sampleConstants (sampleMap 4 6945) lib TrajectoryGenerator.init
      CarBehavior.GO_STRAIGHT { s := 100, d := 13 } { vehicles := [] } []).1.s_dot =
      min kDoubleMax (lib.strayTable 3) := by
    have hi : laneSpeedIndex (sampleMap 4 6945)
        (chooseTarget sampleConstants (sampleMap 4 6945) lib
          (retainStep sampleConstants TrajectoryGenerator.init []) CarBehavior.GO_STRAIGHT
          { s := 100, d := 13 } { vehicles := [] }).1 = 3 := by
      simp only [laneSpeedIndex, chooseTarget, h13]
      norm_num [sampleConstants, h14]
    simp only [targetOfCall, hstart, resolveTarget, clampToLaneSpeed, hi]
    simp [chooseTarget, trackLoop, laneSpeedAt, hnot]
  obtain ⟨hx, hy⟩ := generateTrajectory_out_length sampleConstants (sampleMap 4 6945) lib
    TrajectoryGenerator.init CarBehavior.GO_STRAIGHT { s := 100, d := 13 } { vehicles := [] }
    [] []
  have hk : nPointsKeep sampleConstants [] = 0 := by decide
  have hn : subSizeT sampleConstants.kNrTrajectoryPoints 0 = 50 := by decide
  rw [hk, hn] at hx hy
  exact ⟨hd, hidx, hnot, hspeed, hx, hy⟩

theorem floor_quarter_cases (t : ℚ) (h : t = 0 ∨ t = 2 ∨ t = 6 ∨ t = 10) :
    ⌊t / 4⌋ = 0 ∨ ⌊t / 4⌋ = 1 ∨ ⌊t / 4⌋ = 2 := by
  rcases h with h | h | h | h <;> subst h
  · left; rw [Int.floor_eq_iff]; norm_num
  · left; rw [Int.floor_eq_iff]; norm_num
  · right; left; rw [Int.floor_eq_iff]; norm_num
  · right; right; rw [Int.floor_eq_iff]; norm_num

/-- The target `d` of a call that starts in lane 0, 1 or 2 of a road with lanes of width 4 is
one of the lane centres 2, 6, 10, or the stored target for `COMPLETE_LANE_CHANGE`. -/
theorem resolveTarget_d_cases (cfg : Constants) (map : Map) (lib : Library)
    (gen : TrajectoryGenerator) (next_action : CarBehavior)
    (ego_vehicle_frenet : EgoVehicleFrenet) (sensor_fusion : SensorFusionData)
    (hwidth : cfg.kLaneWidth = 4)
    (hlane : map.getLaneNumber ego_vehicle_frenet.d = 0 ∨
      map.getLaneNumber ego_vehicle_frenet.d = 1 ∨ map.getLaneNumber ego_vehicle_frenet.d = 2) :
    (next_action = CarBehavior.COMPLETE_LANE_CHANGE ∧
      (resolveTarget cfg map lib gen next_action ego_vehicle_frenet sensor_fusion).1.d =
        gen.target_d_for_lane_change_ ∧
      (resolveTarget cfg map lib gen next_action ego_vehicle_frenet
        sensor_fusion).2.target_d_for_lane_change_ = gen.target_d_for_lane_change_) ∨
    (next_action = CarBehavior.GO_STRAIGHT ∧
      ((resolveTarget cfg map lib gen next_action ego_vehicle_frenet sensor_fusion).1.d = 2 ∨
       (resolveTarget cfg map lib gen next_action ego_vehicle_frenet sensor_fusion).1.d = 6 ∨
       (resolveTarget cfg map lib gen next_action ego_vehicle_frenet sensor_fusion).1.d = 10) ∧
      (resolveTarget cfg map lib gen next_action ego_vehicle_frenet
        sensor_fusion).2.target_d_for_lane_change_ = gen.target_d_for_lane_change_) ∨
    (((resolveTarget cfg map lib gen next_action ego_vehicle_frenet sensor_fusion).1.d = 2 ∨
       (resolveTarget cfg map lib gen next_action ego_vehicle_frenet sensor_fusion).1.d = 6 ∨
       (resolveTarget cfg map lib gen next_action ego_vehicle_frenet sensor_fusion).1.d = 10) ∧
      (resolveTarget cfg map lib gen next_action ego_vehicle_frenet
        sensor_fusion).2.target_d_for_lane_change_ =
        (resolveTarget cfg map lib gen next_action ego_vehicle_frenet sensor_fusion).1.d) := by
  cases next_action with
  | COMPLETE_LANE_CHANGE =>
    left
    simp [resolveTarget, clampToLaneSpeed, chooseTarget]
  | GO_STRAIGHT =>
    right; left
    simp only [resolveTarget, clampToLaneSpeed, chooseTarget, hwidth, true_and, and_true]
    rcases hlane with h | h | h <;> rw [h] <;> norm_num
  | CHANGE_LANE_LEFT =>
    right; right
    simp only [resolveTarget, clampToLaneSpeed, chooseTarget, hwidth, and_true]
    rcases hlane with h | h | h <;> rw [h] <;> norm_num
  | CHANGE_LANE_RIGHT =>
    right; right
    simp only [resolveTarget, clampToLaneSpeed, chooseTarget, hwidth, and_true]
    rcases hlane with h | h | h <;> rw [h] <;> norm_num

/-- The stored target of a reachable generator is 0 or one of the lane centres 2, 6, 10. -/
theorem reachable_target_cases (cfg : Constants) (map : Map) (lib : Library)
    (hwidth : cfg.kLaneWidth = 4) (gen : TrajectoryGenerator)
    (hreach : Reachable cfg map lib gen) :
    gen.target_d_for_lane_change_ = 0 ∨ gen.target_d_for_lane_change_ = 2 ∨
      gen.target_d_for_lane_change_ = 6 ∨ gen.target_d_for_lane_change_ = 10 := by
  induction hreach with
  | init => left; rfl
  | call g c _ hc ih =>
    rw [afterCall_target]
    have hcases := resolveTarget_d_cases cfg map lib (retainStep cfg g c.previous_x)
      c.next_action
      (startState cfg map lib (retainStep cfg g c.previous_x) c.ego_vehicle_data c.previous_x)
      c.sensor_fusion hwidth hc
    simp only [targetOfCall]
    rcases hcases with ⟨-, -, h⟩ | ⟨-, -, h⟩ | ⟨hd, h⟩
    · rw [h, retainStep_target]; exact ih
    · rw [h, retainStep_target]; exact ih
    · rw [h]; right; exact hd

/-- C18: with the lane index `floor (d / kLaneWidth)`, `kLaneWidth = 4` and a table of three
speeds, in every generator reachable from the constructor by calls whose start state is in
lane 0, 1 or 2, and for every command of such a call, the resolved target `d` has a lane
index in `{0, 1, 2}`, inside the table; the stored lane-change target has a lane index in
`{0, 1, 2}` as well, its initial value `0.0` included. -/
theorem lane_speed_index_in_table (cfg : Constants) (map : Map) (lib : Library)
    (hfloor : ∀ d : ℚ, map.getLaneNumber d = ⌊d / cfg.kLaneWidth⌋)
    (hwidth : cfg.kLaneWidth = 4) (htable : cfg.kTargetLaneSpeed.length = 3)
    (gen : TrajectoryGenerator) (hreach : Reachable cfg map lib gen)
    (c : Call) (hc : startsOnRoad cfg map lib gen c) :
    (map.getLaneNumber (targetD cfg map lib gen c) = 0 ∨
      map.getLaneNumber (targetD cfg map lib gen c) = 1 ∨
      map.getLaneNumber (targetD cfg map lib gen c) = 2) ∧
    laneInTable cfg (laneSpeedIndex map
      (targetOfCall cfg map lib gen c.next_action c.ego_vehicle_data c.sensor_fusion
        c.previous_x).1) ∧
    (map.getLaneNumber gen.target_d_for_lane_change_ = 0 ∨
      map.getLaneNumber gen.target_d_for_lane_change_ = 1 ∨
      map.getLaneNumber gen.target_d_for_lane_change_ = 2) ∧
    map.getLaneNumber TrajectoryGenerator.init.target_d_for_lane_change_ = 0 := by
  have hstored := reachable_target_cases cfg map lib hwidth gen hreach
  have hcases := resolveTarget_d_cases cfg map lib (retainStep cfg gen c.previous_x)
    c.next_action
    (startState cfg map lib (retainStep cfg gen c.previous_x) c.ego_vehicle_data c.previous_x)
    c.sensor_fusion hwidth hc
  have hd : targetD cfg map lib gen c = 0 ∨ targetD cfg map lib gen c = 2 ∨
      targetD cfg map lib gen c = 6 ∨ targetD cfg map lib gen c = 10 := by
    unfold targetD
    simp only [targetOfCall]
    rcases hcases with ⟨-, h, -⟩ | ⟨-, h, -⟩ | ⟨h, -⟩
    · rw [h, retainStep_target]; exact hstored
    · right; exact h
    · right; exact h
  have hlane : map.getLaneNumber (targetD cfg map lib gen c) = 0 ∨
      map.getLaneNumber (targetD cfg map lib gen c) = 1 ∨
      map.getLaneNumber (targetD cfg map lib gen c) = 2 := by
    rw [hfloor, hwidth]; exact floor_quarter_cases _ hd
  refine ⟨hlane, ?_, ?_, ?_⟩
  · have : laneSpeedIndex map
        (targetOfCall cfg map lib gen c.next_action c.ego_vehicle_data c.sensor_fusion
          c.previous_x).1 = map.getLaneNumber (targetD cfg map lib gen c) := rfl
    rw [this]
    unfold laneInTable
    rw [htable]
    rcases hlane with h | h | h <;> rw [h] <;> decide
  · rw [hfloor, hwidth]; exact floor_quarter_cases _ hstored
  · rw [hfloor, hwidth]
    simp [TrajectoryGenerator.init]

theorem lane_speed_index_in_table_witness :
    (∀ d : ℚ, (sampleMap 4 6945).getLaneNumber d = ⌊d / sampleConstants.kLaneWidth⌋) ∧
    sampleConstants.kLaneWidth = 4 ∧ sampleConstants.kTargetLaneSpeed.length = 3 ∧
    Reachable sampleConstants (sampleMap 4 6945) sampleLibrary TrajectoryGenerator.init ∧
    startsOnRoad sampleConstants (sampleMap 4 6945) sampleLibrary TrajectoryGenerator.init
      { next_action := CarBehavior.COMPLETE_LANE_CHANGE, ego_vehicle_data := { s := 100, d := 6 },
        sensor_fusion := { vehicles := [] }, previous_x := [], previous_y := [] } ∧
    laneInTable sampleConstants (laneSpeedIndex (sampleMap 4 6945)
      (targetOfCall sampleConstants (sampleMap 4 6945) sampleLibrary TrajectoryGenerator.init
        CarBehavior.COMPLETE_LANE_CHANGE { s := 100, d := 6 } { vehicles := [] } []).1) := by
  have hfloor : ∀ d : ℚ,
      (sampleMap 4 6945).getLaneNumber d = ⌊d / sampleConstants.kLaneWidth⌋ := fun _ => rfl
  have hroad : startsOnRoad sampleConstants (sampleMap 4 6945) sampleLibrary
      TrajectoryGenerator.init
      { next_action := CarBehavior.COMPLETE_LANE_CHANGE, ego_vehicle_data := { s := 100, d := 6 },
        sensor_fusion := { vehicles := [] }, previous_x := [], previous_y := [] } := by
    have h6 : (sampleMap 4 6945).getLaneNumber (6 : ℚ) = 1 := by
      simp only [sampleMap]
      rw [Int.floor_eq_iff]; norm_num
    unfold startsOnRoad
    simp only [startState, List.length_nil, Nat.ofNat_pos, if_true]
    right; left; exact h6
  exact ⟨hfloor, rfl, rfl, Reachable.init, hroad,
    (lane_speed_index_in_table sampleConstants (sampleMap 4 6945) sampleLibrary hfloor rfl rfl
      TrajectoryGenerator.init Reachable.init _ hroad).2.1⟩

/-- The fallback branch of `estimateVelocity` is taken exactly on `velocityFallback`; in the
other branch the two reads are inside the trajectory. -/
theorem estimateVelocity_branches (map : Map) (trajectory : List ℚ) (index : ℕ) (dt : ℚ) :
    (velocityFallback trajectory index → estimateVelocity map trajectory index dt = 0) ∧
    (¬ velocityFallback trajectory index →
      ∃ a b : ℚ, trajectory[index]? = some a ∧ trajectory[index - 1]? = some b ∧
        estimateVelocity map trajectory index dt = map.s_min_diff a b / dt) := by
  unfold velocityFallback
  refine ⟨fun h => ?_, fun h => ?_⟩
  · unfold estimateVelocity
    rw [dif_pos h]
  · have h1 : index < trajectory.length := by omega
    have h0 : index - 1 < trajectory.length := by omega
    refine ⟨trajectory[index], trajectory[index - 1], List.getElem?_eq_getElem h1,
      List.getElem?_eq_getElem h0, ?_⟩
    unfold estimateVelocity
    rw [dif_neg h]

theorem estimateAcceleration_of_fallback (map : Map) (trajectory : List ℚ) (index : ℕ)
    (dt : ℚ) (h : accelerationFallback trajectory index) :
    estimateAcceleration map trajectory index dt = 0 := by
  unfold accelerationFallback at h
  unfold estimateAcceleration
  rw [if_pos h]

theorem estimateAcceleration_of_not_fallback (map : Map) (trajectory : List ℚ) (index : ℕ)
    (dt : ℚ) (h : ¬ accelerationFallback trajectory index) :
    estimateAcceleration map trajectory index dt =
      (estimateVelocity map trajectory index dt -
        estimateVelocity map trajectory (index - 1) dt) / dt := by
  unfold accelerationFallback at h
  unfold estimateAcceleration
  rw [if_neg h]

/-- Inside the guard of line 173 `estimateAcceleration` is the second finite difference of
three elements of the trajectory. -/
theorem estimateAcceleration_finite_difference (map : Map) (trajectory : List ℚ) (index : ℕ)
    (dt : ℚ) (h1 : 2 ≤ index) (h2 : index < trajectory.length) :
    ∃ a b c : ℚ, trajectory[index]? = some a ∧ trajectory[index - 1]? = some b ∧
      trajectory[index - 2]? = some c ∧
      estimateAcceleration map trajectory index dt =
        (map.s_min_diff a b / dt - map.s_min_diff b c / dt) / dt := by
  have hnot : ¬ accelerationFallback trajectory index := by
    unfold accelerationFallback; omega
  have i1 : index - 1 < trajectory.length := by omega
  have i2 : index - 2 < trajectory.length := by omega
  refine ⟨trajectory[index], trajectory[index - 1], trajectory[index - 2],
    List.getElem?_eq_getElem h2, List.getElem?_eq_getElem i1, List.getElem?_eq_getElem i2, ?_⟩
  rw [estimateAcceleration_of_not_fallback map trajectory index dt hnot,
    estimateVelocity_finite_difference map trajectory index dt (by omega) h2,
    estimateVelocity_finite_difference map trajectory (index - 1) dt (by omega) i1]
  rfl

/-- C19: in a call with `|previous_x| ≥ 2` and `kNrPreviousPathPoints ≥ 2`, the start state is
the result of `getEgoVehicleFrenetFromPreviousTrajectory` on the retained history; its index
`last_index = n_points_keep - 1` is at least 1 and inside both sequences, so `s`, `d` and the
two velocity estimates are computed from elements of the history (the velocities as finite
differences, not by the fallback branch), and each acceleration estimate takes the fallback
branch exactly when `n_points_keep = min |previous_x| kNrPreviousPathPoints = 2`: for
`n_points_keep = 2` both acceleration estimates are the fallback `0`, and otherwise each is
the second finite difference of the last three elements of its sequence. -/
theorem start_state_from_history (cfg : Constants) (map : Map) (lib : Library)
    (gen : TrajectoryGenerator) (ego_vehicle_data : EgoVehicleData) (previous_x : List ℚ)
    (hsize : cfg.kNrPreviousPathPoints < kSizeMod)
    (hcap : 2 ≤ cfg.kNrPreviousPathPoints) (hx : 2 ≤ previous_x.length) :
    startState cfg map lib (retainStep cfg gen previous_x) ego_vehicle_data previous_x =
      getEgoVehicleFrenetFromPreviousTrajectory cfg map lib (retainStep cfg gen previous_x) ∧
    subSizeT (retainStep cfg gen previous_x).previous_s_.length 1 =
      min previous_x.length cfg.kNrPreviousPathPoints - 1 ∧
    1 ≤ subSizeT (retainStep cfg gen previous_x).previous_s_.length 1 ∧
    subSizeT (retainStep cfg gen previous_x).previous_s_.length 1 <
      (retainStep cfg gen previous_x).previous_s_.length ∧
    subSizeT (retainStep cfg gen previous_x).previous_s_.length 1 <
      (retainStep cfg gen previous_x).previous_d_.length ∧
    ¬ velocityFallback (retainStep cfg gen previous_x).previous_s_
      (subSizeT (retainStep cfg gen previous_x).previous_s_.length 1) ∧
    ¬ velocityFallback (retainStep cfg gen previous_x).previous_d_
      (subSizeT (retainStep cfg gen previous_x).previous_s_.length 1) ∧
    (∃ a b : ℚ,
      (retainStep cfg gen previous_x).previous_s_[
        subSizeT (retainStep cfg gen previous_x).previous_s_.length 1]? = some a ∧
      (retainStep cfg gen previous_x).previous_s_[
        subSizeT (retainStep cfg gen previous_x).previous_s_.length 1 - 1]? = some b ∧
      (startState cfg map lib (retainStep cfg gen previous_x) ego_vehicle_data previous_x).s
        = a ∧
      (startState cfg map lib (retainStep cfg gen previous_x) ego_vehicle_data previous_x).s_dot
        = map.s_min_diff a b / cfg.kSimulationTimeStep) ∧
    (∃ a b : ℚ,
      (retainStep cfg gen previous_x).previous_d_[
        subSizeT (retainStep cfg gen previous_x).previous_s_.length 1]? = some a ∧
      (retainStep cfg gen previous_x).previous_d_[
        subSizeT (retainStep cfg gen previous_x).previous_s_.length 1 - 1]? = some b ∧
      (startState cfg map lib (retainStep cfg gen previous_x) ego_vehicle_data previous_x).d
        = a ∧
      (startState cfg map lib (retainStep cfg gen previous_x) ego_vehicle_data previous_x).d_dot
        = map.s_min_diff a b / cfg.kSimulationTimeStep) ∧
    (accelerationFallback (retainStep cfg gen previous_x).previous_s_
        (subSizeT (retainStep cfg gen previous_x).previous_s_.length 1) ↔
      min previous_x.length cfg.kNrPreviousPathPoints = 2) ∧
    (accelerationFallback (retainStep cfg gen previous_x).previous_d_
        (subSizeT (retainStep cfg gen previous_x).previous_s_.length 1) ↔
      min previous_x.length cfg.kNrPreviousPathPoints = 2) ∧
    (min previous_x.length cfg.kNrPreviousPathPoints = 2 →
      (startState cfg map lib (retainStep cfg gen previous_x) ego_vehicle_data
        previous_x).s_ddot = 0 ∧
      (startState cfg map lib (retainStep cfg gen previous_x) ego_vehicle_data
        previous_x).d_ddot = 0) ∧
    (min previous_x.length cfg.kNrPreviousPathPoints ≠ 2 →
      (∃ a b c : ℚ,
        (retainStep cfg gen previous_x).previous_s_[
          subSizeT (retainStep cfg gen previous_x).previous_s_.length 1]? = some a ∧
        (retainStep cfg gen previous_x).previous_s_[
          subSizeT (retainStep cfg gen previous_x).previous_s_.length 1 - 1]? = some b ∧
        (retainStep cfg gen previous_x).previous_s_[
          subSizeT (retainStep cfg gen previous_x).previous_s_.length 1 - 2]? = some c ∧
        (startState cfg map lib (retainStep cfg gen previous_x) ego_vehicle_data
          previous_x).s_ddot =
          (map.s_min_diff a b / cfg.kSimulationTimeStep -
            map.s_min_diff b c / cfg.kSimulationTimeStep) / cfg.kSimulationTimeStep) ∧
      (∃ a b c : ℚ,
        (retainStep cfg gen previous_x).previous_d_[
          subSizeT (retainStep cfg gen previous_x).previous_s_.length 1]? = some a ∧
        (retainStep cfg gen previous_x).previous_d_[
          subSizeT (retainStep cfg gen previous_x).previous_s_.length 1 - 1]? = some b ∧
        (retainStep cfg gen previous_x).previous_d_[
          subSizeT (retainStep cfg gen previous_x).previous_s_.length 1 - 2]? = some c ∧
        (startState cfg map lib (retainStep cfg gen previous_x) ego_vehicle_data
          previous_x).d_ddot =
          (map.s_min_diff a b / cfg.kSimulationTimeStep -
            map.s_min_diff b c / cfg.kSimulationTimeStep) / cfg.kSimulationTimeStep)) := by
  obtain ⟨hls, hld⟩ := retainStep_length cfg gen previous_x
  have hkeep : nPointsKeep cfg previous_x = min previous_x.length cfg.kNrPreviousPathPoints :=
    rfl
  have hk2 : 2 ≤ min previous_x.length cfg.kNrPreviousPathPoints := le_min hx hcap
  have hklt : min previous_x.length cfg.kNrPreviousPathPoints < kSizeMod :=
    lt_of_le_of_lt (min_le_right _ _) hsize
  have hlast : subSizeT (retainStep cfg gen previous_x).previous_s_.length 1 =
      min previous_x.length cfg.kNrPreviousPathPoints - 1 := by
    rw [hls, hkeep, subSizeT_eq _ _ hklt (by omega)]
  have hstart : startState cfg map lib (retainStep cfg gen previous_x) ego_vehicle_data
      previous_x =
      getEgoVehicleFrenetFromPreviousTrajectory cfg map lib (retainStep cfg gen previous_x) := by
    unfold startState
    rw [if_neg (by omega)]
  have hvs : ¬ velocityFallback (retainStep cfg gen previous_x).previous_s_
      (subSizeT (retainStep cfg gen previous_x).previous_s_.length 1) := by
    unfold velocityFallback
    rw [hlast, hls, hkeep]; omega
  have hvd : ¬ velocityFallback (retainStep cfg gen previous_x).previous_d_
      (subSizeT (retainStep cfg gen previous_x).previous_s_.length 1) := by
    unfold velocityFallback
    rw [hlast, hld, hkeep]; omega
  have has : accelerationFallback (retainStep cfg gen previous_x).previous_s_
      (subSizeT (retainStep cfg gen previous_x).previous_s_.length 1) ↔
      min previous_x.length cfg.kNrPreviousPathPoints = 2 := by
    unfold accelerationFallback
    rw [hlast, hls, hkeep]; omega
  have had : accelerationFallback (retainStep cfg gen previous_x).previous_d_
      (subSizeT (retainStep cfg gen previous_x).previous_s_.length 1) ↔
      min previous_x.length cfg.kNrPreviousPathPoints = 2 := by
    unfold accelerationFallback
    rw [hlast, hld, hkeep]; omega
  refine ⟨hstart, hlast, by rw [hlast]; omega, by rw [hlast, hls, hkeep]; omega,
    by rw [hlast, hld, hkeep]; omega, hvs, hvd, ?_, ?_, has, had, ?_, ?_⟩
  · obtain ⟨a, b, ha, hb, hv⟩ := (estimateVelocity_branches map
      (retainStep cfg gen previous_x).previous_s_
      (subSizeT (retainStep cfg gen previous_x).previous_s_.length 1)
      cfg.kSimulationTimeStep).2 hvs
    refine ⟨a, b, ha, hb, ?_, ?_⟩
    · rw [hstart]
      simp only [getEgoVehicleFrenetFromPreviousTrajectory, dequeAt]
      rw [List.getD_eq_getElem?_getD, ha]; rfl
    · rw [hstart]
      simp only [getEgoVehicleFrenetFromPreviousTrajectory]
      exact hv
  · obtain ⟨a, b, ha, hb, hv⟩ := (estimateVelocity_branches map
      (retainStep cfg gen previous_x).previous_d_
      (subSizeT (retainStep cfg gen previous_x).previous_s_.length 1)
      cfg.kSimulationTimeStep).2 hvd
    refine ⟨a, b, ha, hb, ?_, ?_⟩
    · rw [hstart]
      simp only [getEgoVehicleFrenetFromPreviousTrajectory, dequeAt]
      rw [List.getD_eq_getElem?_getD, ha]; rfl
    · rw [hstart]
      simp only [getEgoVehicleFrenetFromPreviousTrajectory]
      exact hv
  · intro h2
    rw [hstart]
    simp only [getEgoVehicleFrenetFromPreviousTrajectory]
    exact ⟨estimateAcceleration_of_fallback _ _ _ _ (has.mpr h2),
      estimateAcceleration_of_fallback _ _ _ _ (had.mpr h2)⟩
  · intro hne
    have hi2 : 2 ≤ subSizeT (retainStep cfg gen previous_x).previous_s_.length 1 := by
      rw [hlast]; omega
    have hlts : subSizeT (retainStep cfg gen previous_x).previous_s_.length 1 <
        (retainStep cfg gen previous_x).previous_s_.length := by
      rw [hlast, hls, hkeep]; omega
    have hltd : subSizeT (retainStep cfg gen previous_x).previous_s_.length 1 <
        (retainStep cfg gen previous_x).previous_d_.length := by
      rw [hlast, hld, hkeep]; omega
    obtain ⟨a, b, c, ha, hb, hc, hacc⟩ := estimateAcceleration_finite_difference map
      (retainStep cfg gen previous_x).previous_s_
      (subSizeT (retainStep cfg gen previous_x).previous_s_.length 1)
      cfg.kSimulationTimeStep hi2 hlts
    obtain ⟨a2, b2, c2, ha2, hb2, hc2, hacc2⟩ := estimateAcceleration_finite_difference map
      (retainStep cfg gen previous_x).previous_d_
      (subSizeT (retainStep cfg gen previous_x).previous_s_.length 1)
      cfg.kSimulationTimeStep hi2 hltd
    refine ⟨⟨a, b, c, ha, hb, hc, ?_⟩, ⟨a2, b2, c2, ha2, hb2, hc2, ?_⟩⟩
    · rw [hstart]
      simp only [getEgoVehicleFrenetFromPreviousTrajectory]
      exact hacc
    · rw [hstart]
      simp only [getEgoVehicleFrenetFromPreviousTrajectory]
      exact hacc2

theorem start_state_from_history_witness :
    smallConstants.kNrPreviousPathPoints < kSizeMod ∧
    2 ≤ smallConstants.kNrPreviousPathPoints ∧ 2 ≤ ([7, 8, 9] : List ℚ).length ∧
    (startState smallConstants (sampleMap 4 6945) sampleLibrary
      (retainStep smallConstants
        { previous_s_ := [1, 2, 3, 4], previous_d_ := [5, 6, 7, 8],
          target_d_for_lane_change_ := 0 } [7, 8, 9])
      { s := 100, d := 6 } [7, 8, 9]).s_ddot = 0 ∧
    mediumConstants.kNrPreviousPathPoints < kSizeMod ∧
    2 ≤ mediumConstants.kNrPreviousPathPoints ∧
    min ([7, 8, 9] : List ℚ).length mediumConstants.kNrPreviousPathPoints ≠ 2 ∧
    (startState mediumConstants (sampleMap 4 6945) sampleLibrary
      (retainStep mediumConstants
        { previous_s_ := [1, 2, 4, 7], previous_d_ := [5, 6, 6, 6],
          target_d_for_lane_change_ := 0 } [7, 8, 9])
      { s := 100, d := 6 } [7, 8, 9]).s_ddot = 2500 := by
  have hret : (retainStep mediumConstants
      { previous_s_ := [1, 2, 4, 7], previous_d_ := [5, 6, 6, 6],
        target_d_for_lane_change_ := 0 } [7, 8, 9]).previous_s_ = [2, 4, 7] := by
    have hn : subSizeT mediumConstants.kNrTrajectoryPoints ([7, 8, 9] : List ℚ).length = 1 := by
      decide
    have hk : nPointsKeep mediumConstants [7, 8, 9] = 3 := by decide
    rw [(retainStep_eq _ _ _).1, hn, hk]
    simp [trimLoop, resize]
  have hidx : subSizeT ([2, 4, 7] : List ℚ).length 1 = 2 := by decide
  have hne : min ([7, 8, 9] : List ℚ).length mediumConstants.kNrPreviousPathPoints ≠ 2 := by
    decide
  refine ⟨by decide, by decide, by decide,
    ((start_state_from_history smallConstants (sampleMap 4 6945) sampleLibrary
      { previous_s_ := [1, 2, 3, 4], previous_d_ := [5, 6, 7, 8],
        target_d_for_lane_change_ := 0 } { s := 100, d := 6 } [7, 8, 9]
      (by decide) (by decide) (by decide)).2.2.2.2.2.2.2.2.2.2.2.1 (by decide)).1,
    by decide, by decide, hne, ?_⟩
  obtain ⟨a, b, c, ha, hb, hc, hacc⟩ :=
    ((start_state_from_history mediumConstants (sampleMap 4 6945) sampleLibrary
      { previous_s_ := [1, 2, 4, 7], previous_d_ := [5, 6, 6, 6],
        target_d_for_lane_change_ := 0 } { s := 100, d := 6 } [7, 8, 9]
      (by decide) (by decide) (by decide)).2.2.2.2.2.2.2.2.2.2.2.2 hne).1
  rw [hret, hidx] at ha hb hc
  have ha7 : a = 7 := by simpa using ha.symm
  have hb4 : b = 4 := by simpa using hb.symm
  have hc2 : c = 2 := by simpa using hc.symm
  rw [hacc, ha7, hb4, hc2]
  simp only [sampleMap]
  norm_num [mediumConstants, sampleConstants]

/-- For a positive `kPi` and `k2Pi = 2 * kPi`, `normalizeAngle` maps into `[-kPi, kPi)` and
shifts its argument by an integer multiple of `k2Pi`. -/
theorem normalizeAngle_spec {α : Type} [LinearOrderedField α] [FloorRing α] (kPi : α)
    (hpi : 0 < kPi) (x : α) :
    -kPi ≤ Tools.normalizeAngle kPi (2 * kPi) x ∧ Tools.normalizeAngle kPi (2 * kPi) x < kPi ∧
    ∃ k : ℤ, Tools.normalizeAngle kPi (2 * kPi) x = x + (k : α) * (2 * kPi) := by
  have h2 : (0 : α) < 2 * kPi := by linarith
  unfold Tools.normalizeAngle
  by_cases hx : 0 ≤ x + kPi
  · obtain ⟨he, h0, h1⟩ := fmod_of_nonneg (x + kPi) (2 * kPi) h2 hx
    simp only [if_neg (not_lt.mpr h0)]
    refine ⟨by linarith, by linarith, -⌊(x + kPi) / (2 * kPi)⌋, ?_⟩
    rw [he]; push_cast; ring
  · obtain ⟨he, h0, h1⟩ := fmod_of_neg (x + kPi) (2 * kPi) h2 (not_le.mp hx)
    by_cases hneg : fmod (x + kPi) (2 * kPi) < 0
    · simp only [if_pos hneg]
      refine ⟨by linarith, by linarith, -⌈(x + kPi) / (2 * kPi)⌉ + 1, ?_⟩
      rw [he]; push_cast; ring
    · simp only [if_neg hneg]
      refine ⟨by linarith, by linarith, -⌈(x + kPi) / (2 * kPi)⌉, ?_⟩
      rw [he]; push_cast; ring

/-- An angle of `[-kPi, kPi)` is left as it is. -/
theorem normalizeAngle_of_mem {α : Type} [LinearOrderedField α] [FloorRing α] (kPi : α)
    (hpi : 0 < kPi) (y : α) (h0 : -kPi ≤ y) (h1 : y < kPi) :
    Tools.normalizeAngle kPi (2 * kPi) y = y := by
  have h2 : (0 : α) < 2 * kPi := by linarith
  have hy : 0 ≤ y + kPi := by linarith
  obtain ⟨he, hf0, -⟩ := fmod_of_nonneg (y + kPi) (2 * kPi) h2 hy
  have hfloor : ⌊(y + kPi) / (2 * kPi)⌋ = 0 := by
    rw [Int.floor_eq_iff]
    refine ⟨?_, ?_⟩
    · simpa using div_nonneg hy (le_of_lt h2)
    · rw [div_lt_iff₀ h2]
      push_cast
      linarith
  unfold Tools.normalizeAngle
  simp only [if_neg (not_lt.mpr hf0)]
  rw [he, hfloor]
  push_cast
  ring

/-- C20: for every real `x`, with `kPi = π` and `k2Pi = 2 * π`, `normalizeAngle x` lies in
`[-π, π)`, differs from `x` by an integer multiple of `2 * π`, and normalising it again
returns it unchanged. -/
theorem normalizeAngle_real (x : ℝ) :
    -Real.pi ≤ Tools.normalizeAngle Real.pi (2 * Real.pi) x ∧
    Tools.normalizeAngle Real.pi (2 * Real.pi) x < Real.pi ∧
    (∃ k : ℤ, Tools.normalizeAngle Real.pi (2 * Real.pi) x = x + (k : ℝ) * (2 * Real.pi)) ∧
    Tools.normalizeAngle Real.pi (2 * Real.pi)
      (Tools.normalizeAngle Real.pi (2 * Real.pi) x) =
      Tools.normalizeAngle Real.pi (2 * Real.pi) x := by
  obtain ⟨h0, h1, hk⟩ := normalizeAngle_spec Real.pi Real.pi_pos x
  exact ⟨h0, h1, hk, normalizeAngle_of_mem Real.pi Real.pi_pos _ h0 h1⟩

end PathPlanning
